import Mathlib

/-!
Verification of the GltfInstancing pipeline (CPPAlgorithm) against its
natural-language specification.

The definitions below are a shallow embedding of the C++ sources under
`src/CPPAlgorithm/src/`:

* `utilities.cpp` / `utilities.h` — file hashing, bounding boxes,
  transform math, `compareAccessorData`;
* `instancing_detector.cpp` / `instancing_detector.h` — the signature
  engine (`hashAccessorData`, `calculatePrimitiveSignature{Exact}`,
  `calculateMeshSignature`), the scene traversal (`traverseNode`) and
  the detection driver (`InstancingDetector::detect`);
* `glb_writer.cpp` — the assembler pieces relevant here
  (`addDataToBuffer`, `copyAccessor`).

Modelling conventions:

* C++ `size_t` arithmetic is `Nat` reduced modulo `2 ^ 64`; signed
  integers are `Int`.
* C++ `double`/`float` values are modelled as exact rationals (`ℚ`).
  IEEE-754 32-bit values read out of buffers are decoded exactly
  (`decodeF32`); every floating-point value is exactly representable as
  a rational, so only *arithmetic* on such values (matrix products,
  quantisation) is idealised to exact rational arithmetic.
* The implementation-defined `std::hash` specialisations are modelled
  by fixed concrete functions (`hashString`, `hashBytes`, `hashRat`,
  integral casts).  No theorem below relies on properties of these
  models beyond (a) being functions and (b) distinguishing a handful of
  concrete short inputs, which every real implementation also does.
* `CesiumGltf::AccessorView<T>` is a third-party abstraction
  (cesium-native); its construction-time checks and memory layout are
  modelled in `accessorViewA` following the behaviour documented inline
  in `glb_writer.cpp` (the `sizeof(T)` check) and the cesium-native
  contract: a view points at
  `buffer.data + bufferView.byteOffset + accessor.byteOffset`, advances
  by the bufferView's `byteStride` (element size when absent), and
  `size()` is `accessor.count`.
* `std::map` containers (primitive attributes, detection groups,
  caches, remap tables) are association lists; primitive attribute
  lists are kept in the ascending-name order in which `std::map`
  iterates them.
-/

set_option maxRecDepth 8000

namespace GltfInstancing

/-! ## 64-bit hashing model -/

/-- Modulus of C++ `size_t` arithmetic. -/
def U64 : Nat := 18446744073709551616

/-- The seed-mix from `GltfInstancing::hash_combine` (instancing_detector.cpp):
`seed ^= hasher(v) + 0x9e3779b9 + (seed << 6) + (seed >> 2)` on `size_t`. -/
def hashCombine (seed h : Nat) : Nat :=
  (seed ^^^ ((h % U64 + 2654435769 + (seed * 64) % U64 + seed / 4) % U64)) % U64

/-- Concrete model of the implementation-defined `std::hash<std::string>`
(an FNV-1a-style fold; the real libstdc++ function is a MurmurHash
variant).  Only equality on equal inputs and distinctness of a few
concrete short literals is ever used. -/
def hashString (s : String) : Nat :=
  s.data.foldl (fun a c => ((a ^^^ c.toNat % U64) * 1099511628211) % U64)
    14695981039346656037

/-- Concrete model of the implementation-defined `std::hash<std::string_view>`
over raw bytes (used on accessor data). -/
def hashBytes (bs : List Nat) : Nat :=
  bs.foldl (fun a b => ((a ^^^ b % 256) * 1099511628211) % U64)
    14695981039346656037

/-- libstdc++ `std::hash` over integral values: `static_cast<size_t>`,
two's complement. -/
def hashInt (i : Int) : Nat := (i.emod (U64 : Int)).toNat

/-- `std::hash<size_t>` is the identity. -/
def hashNat (n : Nat) : Nat := n % U64

/-- `std::hash<bool>`. -/
def hashBool (b : Bool) : Nat := if b then 1 else 0

/-- Concrete model of `std::hash` over floating-point values (doubles and
floats are modelled as exact rationals). -/
def hashRat (q : ℚ) : Nat := hashCombine (hashInt q.num) (hashNat q.den)

/-- Exact rational addition written out through `mkRat` (numerically
equal to `a + b`; spelled this way because the library's `Rat.add` is
irreducible, which would block kernel evaluation of the witnesses). -/
def qadd (a b : ℚ) : ℚ := mkRat (a.num * b.den + b.num * a.den) (a.den * b.den)

/-- Exact rational subtraction through `mkRat` (numerically `a - b`). -/
def qsub (a b : ℚ) : ℚ := qadd a (-b)

/-- Exact rational division, written out through `mkRat` (numerically
equal to `a / b`, with division by zero giving 0). -/
def qdiv (a b : ℚ) : ℚ :=
  mkRat (a.num * (if b.num < 0 then -(b.den : Int) else (b.den : Int)))
    (a.den * b.num.natAbs)

/-- Absolute value (`std::abs` on doubles). -/
def qabs (x : ℚ) : ℚ := if x < 0 then -x else x

/-- Minimum (`glm::min` on doubles). -/
def qmin (a b : ℚ) : ℚ := if a ≤ b then a else b

/-- Maximum (`glm::max` on doubles). -/
def qmax (a b : ℚ) : ℚ := if a ≤ b then b else a

/-! ## glTF data model (CesiumGltf structures, as used by the sources) -/

/-- CesiumGltf::Accessor, restricted to the declared fields the sources
read.  `count` and `byteOffset` are non-negative in any parsed model and
are kept as `Nat`; `bufferView` is `-1` when absent. -/
structure Accessor where
  type : String
  componentType : Int
  count : Nat
  normalized : Bool
  byteOffset : Nat
  bufferView : Int
  min : List ℚ
  max : List ℚ
deriving DecidableEq

/-- CesiumGltf::BufferView. -/
structure BufferView where
  buffer : Int
  byteOffset : Nat
  byteLength : Nat
  byteStride : Option Nat
  target : Option Int
deriving DecidableEq

/-- CesiumGltf::Buffer; `data` is `buffer.cesium.data`, the in-memory
bytes (empty when an external URI was not resolved). -/
structure Buffer where
  data : List Nat
deriving DecidableEq

/-- CesiumGltf::MeshPrimitive.  `attributes` is a `std::map` iterated in
ascending attribute-name order; it is kept as an association list in
that order. -/
structure MeshPrimitive where
  mode : Int
  material : Int
  indices : Int
  attributes : List (String × Int)
  targets : List (List (String × Int))
deriving DecidableEq

/-- CesiumGltf::Mesh. -/
structure Mesh where
  name : String
  primitives : List MeshPrimitive
deriving DecidableEq

/-- CesiumGltf::Node.  `gpuInstancing` is the parsed
`EXT_mesh_gpu_instancing` extension (its `attributes` map) when the
node carries one. -/
structure Node where
  mesh : Int
  children : List Int
  translation : List ℚ
  rotation : List ℚ
  scale : List ℚ
  matrix : List ℚ
  gpuInstancing : Option (List (String × Int))
deriving DecidableEq

/-- CesiumGltf::Scene. -/
structure Scene where
  nodes : List Int
deriving DecidableEq

/-- CesiumGltf::Model, restricted to the parts the detector and writer
read. -/
structure Model where
  accessors : List Accessor
  bufferViews : List BufferView
  buffers : List Buffer
  meshes : List Mesh
  nodes : List Node
  scenes : List Scene
  scene : Int
deriving DecidableEq

/-- CesiumGltf::Accessor::computeNumberOfComponents. -/
def computeNumberOfComponents (t : String) : Nat :=
  if t = "SCALAR" then 1
  else if t = "VEC2" then 2
  else if t = "VEC3" then 3
  else if t = "VEC4" then 4
  else if t = "MAT2" then 4
  else if t = "MAT3" then 9
  else if t = "MAT4" then 16
  else 0

/-- CesiumGltf::Accessor::computeByteSizeOfComponent
(5120 BYTE, 5121 UNSIGNED_BYTE, 5122 SHORT, 5123 UNSIGNED_SHORT,
5125 UNSIGNED_INT, 5126 FLOAT). -/
def computeByteSizeOfComponent (c : Int) : Nat :=
  if c = 5120 ∨ c = 5121 then 1
  else if c = 5122 ∨ c = 5123 then 2
  else if c = 5125 ∨ c = 5126 then 4
  else 0

/-- Size in bytes of one accessor element. -/
def elementSize (a : Accessor) : Nat :=
  computeNumberOfComponents a.type * computeByteSizeOfComponent a.componentType

/-- CesiumGltf::Accessor::computeByteStride over a known bufferView:
the bufferView's `byteStride` when present and positive, the tightly
packed element size otherwise. -/
def effectiveStride (bv : BufferView) (a : Accessor) : Nat :=
  match bv.byteStride with
  | some s => if 0 < s then s else elementSize a
  | none => elementSize a

/-! ## AccessorView model -/

/-- Construction status of a `CesiumGltf::AccessorView<T>`.  The
constructor names are descriptive; only (in)equality of statuses is ever
relied on. -/
inductive ViewStatus where
  | valid
  | invalidAccessorIndex
  | invalidBufferViewIndex
  | invalidBufferIndex
  | invalidElementSize
  | bufferViewTooSmallForData
  | accessorOutOfBufferViewBounds
  | wrongSizeT
deriving DecidableEq

/-- Integer code of a status (`static_cast<int>(status)` is mixed into
the fallback hash; only equality of codes matters, and distinct
statuses get distinct codes as in the C++ enum). -/
def ViewStatus.toInt : ViewStatus → Int
  | .valid => 0
  | .invalidAccessorIndex => 1
  | .invalidBufferViewIndex => 2
  | .invalidBufferIndex => 3
  | .invalidElementSize => 4
  | .bufferViewTooSmallForData => 5
  | .accessorOutOfBufferViewBounds => 6
  | .wrongSizeT => 7

/-- Resolved view over an accessor's bytes: the base byte offset within
the buffer data, the stride between consecutive elements, the element
size, the element count and the underlying buffer bytes. -/
structure ViewInfo where
  status : ViewStatus
  base : Nat
  stride : Nat
  elemSize : Nat
  count : Nat
  bufData : List Nat
deriving DecidableEq

/-- A view that failed construction. -/
def badView (s : ViewStatus) : ViewInfo := ⟨s, 0, 0, 0, 0, []⟩

/-- Model of `CesiumGltf::AccessorView<T>(model, accessor)` where
`sizeofT` is `sizeof(T)`: resolves the accessor's bufferView and buffer,
computes the effective stride, and checks — as documented inline in
glb_writer.cpp — that `sizeof(T)` equals the accessor's element size
(`WrongSizeT` otherwise) and that the accessed range is in bounds. -/
def accessorViewA (m : Model) (a : Accessor) (sizeofT : Nat) : ViewInfo :=
  if a.bufferView < 0 ∨ m.bufferViews.length ≤ a.bufferView.toNat then
    badView .invalidBufferViewIndex
  else
    match m.bufferViews[a.bufferView.toNat]? with
    | none => badView .invalidBufferViewIndex
    | some bv =>
      if bv.buffer < 0 ∨ m.buffers.length ≤ bv.buffer.toNat then
        badView .invalidBufferIndex
      else
        match m.buffers[bv.buffer.toNat]? with
        | none => badView .invalidBufferIndex
        | some b =>
          if elementSize a = 0 then badView .invalidElementSize
          else if b.data.length < bv.byteOffset + bv.byteLength then
            badView .bufferViewTooSmallForData
          else if sizeofT ≠ elementSize a then badView .wrongSizeT
          else if 0 < a.count ∧
              bv.byteLength <
                a.byteOffset + effectiveStride bv a * (a.count - 1) + elementSize a then
            badView .accessorOutOfBufferViewBounds
          else
            ⟨.valid, bv.byteOffset + a.byteOffset, effectiveStride bv a,
              elementSize a, a.count, b.data⟩

/-- `AccessorView` construction by accessor index (the detector always
passes an index). -/
def accessorView (m : Model) (aIdx : Int) (sizeofT : Nat) : ViewInfo :=
  if aIdx < 0 ∨ m.accessors.length ≤ aIdx.toNat then badView .invalidAccessorIndex
  else
    match m.accessors[aIdx.toNat]? with
    | none => badView .invalidAccessorIndex
    | some a => accessorViewA m a sizeofT

/-- Byte slice `data[off .. off+len)`. -/
def sliceBytes (data : List Nat) (off len : Nat) : List Nat :=
  (data.drop off).take len

/-- The bytes of element `i` of a view, following the view's stride. -/
def viewElementBytes (v : ViewInfo) (i : Nat) : List Nat :=
  sliceBytes v.bufData (v.base + i * v.stride) v.elemSize

/-- The de-interleaved element byte sequence of a view: element `i`
starts at `base + i * stride`, `elemSize` bytes each. -/
def deinterleavedBytes (v : ViewInfo) : List Nat :=
  (List.range v.count).flatMap (viewElementBytes v)

/-- The contiguous byte run `count * elemSize` bytes long starting at
the view's base — what `std::string_view(view.data(), totalByteSize)`
exposes. -/
def contiguousBytes (v : ViewInfo) : List Nat :=
  sliceBytes v.bufData v.base (v.count * v.elemSize)

/-! ## IEEE-754 binary32 decoding (exact, as rationals) -/

/-- Byte fetch with out-of-range reads as 0 (views are only read within
their validated bounds). -/
def getByte (data : List Nat) (i : Nat) : Nat := (data[i]?).getD 0

/-- Exact value of a little-endian IEEE-754 binary32 number as a
rational.  Infinities and NaN (exponent 255) are modelled as 0; no
claim exercises them. -/
def decodeF32 (b0 b1 b2 b3 : Nat) : ℚ :=
  let bits := b0 % 256 + 256 * (b1 % 256) + 65536 * (b2 % 256) + 16777216 * (b3 % 256)
  let e := bits / 8388608 % 256
  let f := bits % 8388608
  let signed : Int := if bits / 2147483648 % 2 = 1 then -1 else 1
  if e = 0 then mkRat (signed * f) (2 ^ 149)
  else if e = 255 then 0
  else if 127 ≤ e then mkRat (signed * ((8388608 + f) * 2 ^ (e - 127) : Nat)) (2 ^ 23)
  else mkRat (signed * (8388608 + f)) (2 ^ (127 - e) * 2 ^ 23)

/-- Read the binary32 at byte offset `off` of a view's buffer. -/
def readF32 (v : ViewInfo) (off : Nat) : ℚ :=
  decodeF32 (getByte v.bufData off) (getByte v.bufData (off + 1))
    (getByte v.bufData (off + 2)) (getByte v.bufData (off + 3))

/-- Three-component rational vector (models glm::[d]vec3). -/
structure Vec3Q where
  x : ℚ
  y : ℚ
  z : ℚ
deriving DecidableEq

/-- Four-component rational vector (models glm::[d]vec4). -/
structure Vec4Q where
  x : ℚ
  y : ℚ
  z : ℚ
  w : ℚ
deriving DecidableEq

/-- Rational quaternion (models glm::dquat, stored w,x,y,z). -/
structure QuatQ where
  w : ℚ
  x : ℚ
  y : ℚ
  z : ℚ
deriving DecidableEq

/-- `AccessorView<glm::vec3>::operator[]`. -/
def readVec3F (v : ViewInfo) (i : Nat) : Vec3Q :=
  ⟨readF32 v (v.base + i * v.stride), readF32 v (v.base + i * v.stride + 4),
    readF32 v (v.base + i * v.stride + 8)⟩

/-- `AccessorView<glm::vec4>::operator[]`. -/
def readVec4F (v : ViewInfo) (i : Nat) : Vec4Q :=
  ⟨readF32 v (v.base + i * v.stride), readF32 v (v.base + i * v.stride + 4),
    readF32 v (v.base + i * v.stride + 8), readF32 v (v.base + i * v.stride + 12)⟩

/-! ## The accessor-data hash (GltfInstancing::hashAccessorData) -/

/-- The tolerance threshold `1e-9` used throughout the detector
(modelled as the exact rational; the double closest to 1e-9 differs
from it by far less than any tolerance exercised here). -/
def tolEps : ℚ := mkRat 1 1000000000

/-- Rounding as used by `glm::round` (to nearest integer; the model
uses round-half-up, which agrees except at negative exact halves, never
exercised). -/
def roundQ (q : ℚ) : ℚ := (round q : ℤ)

/-- Structured outcome of `hashAccessorData`, recording which branch of
the function produced the hash together with that branch's inputs.  The
numeric hash is recovered by `AccessorHashResult.value`. -/
inductive AccessorHashResult where
  | invalidIndex
  | normalQuantized (comps : List ℚ)
  | byteViewDirect (bytes : List Nat)
  | typedViewData (bytes : List Nat)
  | fallback (a : Accessor) (st : ViewStatus)
deriving DecidableEq

/-- The fallback property hash (instancing_detector.cpp lines 238-272):
type, component type, count, normalized flag, min values (sentinel
`0xDECAFBAD` when absent), max values (sentinel `0xBAADF00D` when
absent), and the byte view's status code. -/
def fallbackSeed (a : Accessor) (st : ViewStatus) : Nat :=
  let s0 := hashCombine 0 (hashString a.type)
  let s1 := hashCombine s0 (hashInt a.componentType)
  let s2 := hashCombine s1 (hashInt (a.count : Int))
  let s3 := hashCombine s2 (hashBool a.normalized)
  let s4 :=
    if a.min ≠ [] then a.min.foldl (fun s v => hashCombine s (hashRat v)) s3
    else hashCombine s3 (hashNat 3737844653)
  let s5 :=
    if a.max ≠ [] then a.max.foldl (fun s v => hashCombine s (hashRat v)) s4
    else hashCombine s4 (hashNat 3131961357)
  hashCombine s5 (hashInt st.toInt)

/-- Numeric hash of a structured outcome. -/
def AccessorHashResult.value : AccessorHashResult → Nat
  | .invalidIndex => hashCombine 0 (hashInt (-1))
  | .normalQuantized comps => comps.foldl (fun s c => hashCombine s (hashRat c)) 0
  | .byteViewDirect bytes => hashBytes bytes
  | .typedViewData bytes => hashBytes bytes
  | .fallback a st => fallbackSeed a st

/-- The typed-view whitelist of `hashAccessorData`: the only
(type, componentType) pairs for which a typed `AccessorView` is
attempted (VEC3/FLOAT, SCALAR/UNSIGNED_INT, VEC2/FLOAT,
SCALAR/UNSIGNED_SHORT). -/
def typedViewSupported (a : Accessor) : Prop :=
  (a.type = "VEC3" ∧ a.componentType = 5126) ∨
  (a.type = "SCALAR" ∧ a.componentType = 5125) ∨
  (a.type = "VEC2" ∧ a.componentType = 5126) ∨
  (a.type = "SCALAR" ∧ a.componentType = 5123)

instance (a : Accessor) : Decidable (typedViewSupported a) := by
  unfold typedViewSupported; infer_instance

/-- Condition for the NORMAL quantised-hash branch of
`hashAccessorData`. -/
def normalToleranceCond (a : Accessor) (attributeName : String) (tol : ℚ) : Prop :=
  attributeName = "NORMAL" ∧ a.type = "VEC3" ∧ a.componentType = 5126 ∧ tolEps < tol

instance (a : Accessor) (n : String) (t : ℚ) :
    Decidable (normalToleranceCond a n t) := by
  unfold normalToleranceCond; infer_instance

/-- GltfInstancing::hashAccessorData (instancing_detector.cpp lines
54-273), translated branch by branch; the returned structure keeps the
branch taken.  `attributeSpecificTolerance` is the NORMAL-attribute
tolerance passed by the tolerance-mode signature.

Branches, in source order: invalid accessor index; quantised hashing of
VEC3/FLOAT `NORMAL` data when a positive specific tolerance is given
and the view is valid; the `AccessorView<std::byte>` path (valid
exactly for one-byte elements) hashing `view.size()` contiguous bytes
from `view.data()`; the typed-view path for the whitelisted
(type, componentType) pairs hashing `count * elementSize` contiguous
bytes from `view.data()`; otherwise the property fallback hash. -/
def hashAccessorDataR (m : Model) (aIdx : Int) (attributeName : String)
    (attributeSpecificTolerance : ℚ) : AccessorHashResult :=
  if aIdx < 0 ∨ m.accessors.length ≤ aIdx.toNat then .invalidIndex
  else
    match m.accessors[aIdx.toNat]? with
    | none => .invalidIndex
    | some a =>
      let nView := accessorView m aIdx 12
      if normalToleranceCond a attributeName attributeSpecificTolerance ∧
          nView.status = .valid then
        .normalQuantized ((List.range nView.count).flatMap (fun i =>
          let v := readVec3F nView i
          [roundQ (qdiv v.x attributeSpecificTolerance),
           roundQ (qdiv v.y attributeSpecificTolerance),
           roundQ (qdiv v.z attributeSpecificTolerance)]))
      else
        let byteView := accessorView m aIdx 1
        if byteView.status = .valid then .byteViewDirect (contiguousBytes byteView)
        else
          let nc := computeNumberOfComponents a.type
          let cs := computeByteSizeOfComponent a.componentType
          if nc = 0 ∨ cs = 0 then .fallback a byteView.status
          else
            let tView := accessorView m aIdx (nc * cs)
            if typedViewSupported a ∧ tView.status = .valid then
              .typedViewData (contiguousBytes tView)
            else .fallback a byteView.status

/-- The numeric accessor-data hash, as mixed into signatures. -/
def hashAccessorData (m : Model) (aIdx : Int) (attributeName : String)
    (attributeSpecificTolerance : ℚ) : Nat :=
  (hashAccessorDataR m aIdx attributeName attributeSpecificTolerance).value

/-! ## Primitive and mesh signatures -/

/-- List indexing guarded the way the sources guard it
(`idx >= 0 && size_t(idx) < vec.size()`). -/
def validListIdx {α : Type} (xs : List α) (i : Int) : Prop :=
  0 ≤ i ∧ i.toNat < xs.length

instance {α : Type} (xs : List α) (i : Int) : Decidable (validListIdx xs i) := by
  unfold validListIdx; infer_instance

/-- InstancingDetector::calculatePrimitiveSignatureExact
(instancing_detector.cpp lines 336-449): mixes material, mode, the
indices accessor's type, componentType, count and data hash
(placeholders -1, -1, 0, -1 when absent), then each attribute in name
order (name, type,
componentType, count, normalized, data hash; -1 when the accessor index
is invalid), then each morph target's entries in name order (name,
type, componentType, data hash; -1 when invalid). -/
def calculatePrimitiveSignatureExact (m : Model) (p : MeshPrimitive) : Nat :=
  let s := hashCombine 0 (hashInt p.material)
  let s := hashCombine s (hashInt p.mode)
  let s :=
    if validListIdx m.accessors p.indices then
      match m.accessors[p.indices.toNat]? with
      | some ia =>
        let s := hashCombine s (hashString ia.type)
        let s := hashCombine s (hashInt ia.componentType)
        let s := hashCombine s (hashInt (ia.count : Int))
        hashCombine s (hashNat (hashAccessorData m p.indices "INDICES" 0))
      | none => s
    else
      let s := hashCombine s (hashInt (-1))
      let s := hashCombine s (hashInt (-1))
      let s := hashCombine s (hashInt 0)
      hashCombine s (hashInt (-1))
  let s := p.attributes.foldl (fun s ap =>
    let s := hashCombine s (hashString ap.1)
    if validListIdx m.accessors ap.2 then
      match m.accessors[ap.2.toNat]? with
      | some a =>
        let s := hashCombine s (hashString a.type)
        let s := hashCombine s (hashInt a.componentType)
        let s := hashCombine s (hashInt (a.count : Int))
        let s := hashCombine s (hashBool a.normalized)
        hashCombine s (hashNat (hashAccessorData m ap.2 ap.1 0))
      | none => s
    else hashCombine s (hashInt (-1))) s
  p.targets.foldl (fun s tgt =>
    tgt.foldl (fun s ap =>
      let s := hashCombine s (hashString ap.1)
      if validListIdx m.accessors ap.2 then
        match m.accessors[ap.2.toNat]? with
        | some a =>
          let s := hashCombine s (hashString a.type)
          let s := hashCombine s (hashInt a.componentType)
          hashCombine s (hashNat (hashAccessorData m ap.2 ap.1 0))
        | none => s
      else hashCombine s (hashInt (-1))) s) s

/-- The per-attribute step of the tolerance-mode signature
(instancing_detector.cpp lines 508-579): for POSITION and for
attributes named in the skip set, only the attribute name is mixed in;
otherwise only the attribute's data hash (computed with the NORMAL
tolerance where applicable). -/
def toleranceAttrFold (normalTolerance : ℚ) (skipAttributes : List String)
    (m : Model) (s : Nat) (ap : String × Int) : Nat :=
  if ap.1 = "POSITION" ∨ skipAttributes.contains ap.1 then
    hashCombine s (hashString ap.1)
  else
    let specTol := if ap.1 = "NORMAL" ∧ tolEps < normalTolerance
      then normalTolerance else 0
    hashCombine s (hashNat (hashAccessorData m ap.2 ap.1 specTol))

/-- InstancingDetector::calculatePrimitiveSignature
(instancing_detector.cpp lines 452-608).  With
`geometryTolerance ≤ 1e-9` it delegates to the exact signature.
Otherwise it mixes material, mode, the POSITION accessor's count (-1
when absent/invalid), the indices accessor's count (0 when
absent/invalid), then each attribute in name order: for POSITION and
for attributes named in `skipAttributes` only the attribute name is
mixed in; otherwise only that attribute's data hash (with the NORMAL
tolerance forwarded when applicable).  Morph targets are hashed as in
exact mode. -/
def calculatePrimitiveSignature (geometryTolerance normalTolerance : ℚ)
    (skipAttributes : List String) (m : Model) (p : MeshPrimitive) : Nat :=
  if geometryTolerance ≤ tolEps then calculatePrimitiveSignatureExact m p
  else
    let s := hashCombine 0 (hashInt p.material)
    let s := hashCombine s (hashInt p.mode)
    let positionAccessorIndex := ((p.attributes.lookup "POSITION").getD (-1) : Int)
    let s :=
      if validListIdx m.accessors positionAccessorIndex then
        match m.accessors[positionAccessorIndex.toNat]? with
        | some pa => hashCombine s (hashInt (pa.count : Int))
        | none => s
      else hashCombine s (hashInt (-1))
    let s :=
      if validListIdx m.accessors p.indices then
        match m.accessors[p.indices.toNat]? with
        | some ia => hashCombine s (hashInt (ia.count : Int))
        | none => s
      else hashCombine s (hashInt 0)
    let s := p.attributes.foldl (toleranceAttrFold normalTolerance skipAttributes m) s
    p.targets.foldl (fun s tgt =>
      tgt.foldl (fun s ap =>
        let s := hashCombine s (hashString ap.1)
        if validListIdx m.accessors ap.2 then
          match m.accessors[ap.2.toNat]? with
          | some a =>
            let s := hashCombine s (hashString a.type)
            let s := hashCombine s (hashInt a.componentType)
            hashCombine s (hashNat (hashAccessorData m ap.2 ap.1 0))
          | none => s
        else hashCombine s (hashInt (-1))) s) s

/-- InstancingDetector::calculateMeshSignature: the mix of the
primitive signatures. -/
def calculateMeshSignature (geometryTolerance normalTolerance : ℚ)
    (skipAttributes : List String) (m : Model) (mesh : Mesh) : Nat :=
  mesh.primitives.foldl (fun s p =>
    hashCombine s (hashNat
      (calculatePrimitiveSignature geometryTolerance normalTolerance skipAttributes m p))) 0

/-! ## Bounding boxes (utilities.cpp) -/

/-- Stand-in for `std::numeric_limits<double>::max()`; only its
magnitude ordering matters (a default-constructed box is invalid). -/
def dblMax : ℚ := ((2 ^ 1024 : Nat) : ℚ)

/-- GltfInstancing::BoundingBox.  Default-constructed boxes have
`min = dblMax`, `max = -dblMax` and are invalid. -/
structure BoundingBox where
  min : Vec3Q
  max : Vec3Q
deriving DecidableEq

/-- A default-constructed (invalid) box. -/
def emptyBox : BoundingBox := ⟨⟨dblMax, dblMax, dblMax⟩, ⟨-dblMax, -dblMax, -dblMax⟩⟩

/-- BoundingBox::isValid. -/
def BoundingBox.isValid (b : BoundingBox) : Bool :=
  decide (b.min.x ≤ b.max.x ∧ b.min.y ≤ b.max.y ∧ b.min.z ≤ b.max.z)

/-- GltfInstancing::areBoundingBoxesSimilar (utilities.cpp lines
607-630): both boxes valid and every min and max component within
`tolerance`. -/
def areBoundingBoxesSimilar (bb1 bb2 : BoundingBox) (tolerance : ℚ) : Bool :=
  bb1.isValid && bb2.isValid &&
  decide (qabs (qsub bb1.min.x bb2.min.x) ≤ tolerance ∧
          qabs (qsub bb1.min.y bb2.min.y) ≤ tolerance ∧
          qabs (qsub bb1.min.z bb2.min.z) ≤ tolerance ∧
          qabs (qsub bb1.max.x bb2.max.x) ≤ tolerance ∧
          qabs (qsub bb1.max.y bb2.max.y) ≤ tolerance ∧
          qabs (qsub bb1.max.z bb2.max.z) ≤ tolerance)

/-- Element of a rational list with default 0 (list accesses below are
all length-guarded as in the sources). -/
def qAt (l : List ℚ) (i : Nat) : ℚ := (l[i]?).getD 0

/-- GltfInstancing::getPrimitiveBoundingBox (utilities.cpp lines
541-589): the POSITION accessor's declared min and max when both have
at least three entries, else a scan of the decoded vertex positions,
else an invalid box. -/
def getPrimitiveBoundingBox (m : Model) (p : MeshPrimitive) : BoundingBox :=
  match p.attributes.lookup "POSITION" with
  | none => emptyBox
  | some idx =>
    if ¬ validListIdx m.accessors idx then emptyBox
    else
      match m.accessors[idx.toNat]? with
      | none => emptyBox
      | some a =>
        if a.min ≠ [] ∧ a.max ≠ [] ∧ 3 ≤ a.min.length ∧ 3 ≤ a.max.length then
          ⟨⟨qAt a.min 0, qAt a.min 1, qAt a.min 2⟩,
           ⟨qAt a.max 0, qAt a.max 1, qAt a.max 2⟩⟩
        else
          let v := accessorView m idx 12
          if v.status ≠ .valid ∨ v.count = 0 then emptyBox
          else
            let p0 := readVec3F v 0
            (List.range (v.count - 1)).foldl (fun b i =>
              let q := readVec3F v (i + 1)
              ⟨⟨qmin b.min.x q.x, qmin b.min.y q.y, qmin b.min.z q.z⟩,
               ⟨qmax b.max.x q.x, qmax b.max.y q.y, qmax b.max.z q.z⟩⟩)
              ⟨p0, p0⟩

/-! ## Transform math (glm, utilities.cpp) -/

/-- Column-major 4×4 rational matrix (models glm::dmat4). -/
structure Mat4 where
  c0 : Vec4Q
  c1 : Vec4Q
  c2 : Vec4Q
  c3 : Vec4Q
deriving DecidableEq

/-- Identity matrix. -/
def Mat4.id : Mat4 :=
  ⟨⟨1, 0, 0, 0⟩, ⟨0, 1, 0, 0⟩, ⟨0, 0, 1, 0⟩, ⟨0, 0, 0, 1⟩⟩

/-- Matrix-vector product. -/
def mulVec (m : Mat4) (v : Vec4Q) : Vec4Q :=
  ⟨m.c0.x * v.x + m.c1.x * v.y + m.c2.x * v.z + m.c3.x * v.w,
   m.c0.y * v.x + m.c1.y * v.y + m.c2.y * v.z + m.c3.y * v.w,
   m.c0.z * v.x + m.c1.z * v.y + m.c2.z * v.z + m.c3.z * v.w,
   m.c0.w * v.x + m.c1.w * v.y + m.c2.w * v.z + m.c3.w * v.w⟩

/-- Matrix product (glm `operator*`). -/
def Mat4.mul (a b : Mat4) : Mat4 :=
  ⟨mulVec a b.c0, mulVec a b.c1, mulVec a b.c2, mulVec a b.c3⟩

/-- glm::translate(I, t). -/
def translateM (t : Vec3Q) : Mat4 :=
  ⟨⟨1, 0, 0, 0⟩, ⟨0, 1, 0, 0⟩, ⟨0, 0, 1, 0⟩, ⟨t.x, t.y, t.z, 1⟩⟩

/-- glm::scale(I, s). -/
def scaleM (s : Vec3Q) : Mat4 :=
  ⟨⟨s.x, 0, 0, 0⟩, ⟨0, s.y, 0, 0⟩, ⟨0, 0, s.z, 0⟩, ⟨0, 0, 0, 1⟩⟩

/-- The identity quaternion (w = 1). -/
def identityQuat : QuatQ := ⟨1, 0, 0, 0⟩

/-- Exact value of `glm::mat4_cast(glm::normalize(q))`: the rotation
matrix of the normalised quaternion.  Because the matrix entries of a
unit quaternion are quadratic in its components, normalisation amounts
to dividing the quadratic terms by the squared norm, which is exact
rational arithmetic (no square root is needed).  A zero quaternion
(never produced by the sources) yields the identity. -/
def quatToMat (q : QuatQ) : Mat4 :=
  let n := q.w * q.w + q.x * q.x + q.y * q.y + q.z * q.z
  if n = 0 then Mat4.id
  else
    ⟨⟨1 - qdiv (2 * (q.y * q.y + q.z * q.z)) n, qdiv (2 * (q.x * q.y + q.w * q.z)) n,
      qdiv (2 * (q.x * q.z - q.w * q.y)) n, 0⟩,
     ⟨qdiv (2 * (q.x * q.y - q.w * q.z)) n, 1 - qdiv (2 * (q.x * q.x + q.z * q.z)) n,
      qdiv (2 * (q.y * q.z + q.w * q.x)) n, 0⟩,
     ⟨qdiv (2 * (q.x * q.z + q.w * q.y)) n, qdiv (2 * (q.y * q.z - q.w * q.x)) n,
      1 - qdiv (2 * (q.x * q.x + q.y * q.y)) n, 0⟩,
     ⟨0, 0, 0, 1⟩⟩

/-- GltfInstancing::getLocalTransformMatrix (utilities.cpp lines
299-353): TRS when any of translation, rotation, scale is non-empty
(each with defaults when absent or of unexpected length), else the
16-element column-major matrix when well-formed, else identity. -/
def getLocalTransformMatrix (node : Node) : Mat4 :=
  if node.translation ≠ [] ∨ node.rotation ≠ [] ∨ node.scale ≠ [] then
    let t : Vec3Q :=
      if node.translation ≠ [] ∧ node.translation.length = 3 then
        ⟨qAt node.translation 0, qAt node.translation 1, qAt node.translation 2⟩
      else ⟨0, 0, 0⟩
    let q : QuatQ :=
      if node.rotation ≠ [] ∧ node.rotation.length = 4 then
        ⟨qAt node.rotation 3, qAt node.rotation 0, qAt node.rotation 1, qAt node.rotation 2⟩
      else identityQuat
    let sc : Vec3Q :=
      if node.scale ≠ [] ∧ node.scale.length = 3 then
        ⟨qAt node.scale 0, qAt node.scale 1, qAt node.scale 2⟩
      else ⟨1, 1, 1⟩
    (translateM t).mul ((quatToMat q).mul (scaleM sc))
  else if node.matrix ≠ [] then
    if node.matrix.length = 16 then
      ⟨⟨qAt node.matrix 0, qAt node.matrix 1, qAt node.matrix 2, qAt node.matrix 3⟩,
       ⟨qAt node.matrix 4, qAt node.matrix 5, qAt node.matrix 6, qAt node.matrix 7⟩,
       ⟨qAt node.matrix 8, qAt node.matrix 9, qAt node.matrix 10, qAt node.matrix 11⟩,
       ⟨qAt node.matrix 12, qAt node.matrix 13, qAt node.matrix 14, qAt node.matrix 15⟩⟩
    else Mat4.id
  else Mat4.id

/-! ## Loader (glb_reader.cpp, utilities.cpp calculateFileSHA256) -/

/-- GltfInstancing::calculateFileSHA256 (utilities.cpp lines 119-159).
The compiled branch is the placeholder one: `USE_OPENSSL_SHA256` is not
defined by any file of the repository, so the function returns
`"pseudo_sha256_" + fileSize + "_" + std::hash(filename)` — a value
depending only on the file's size and base name, not on its bytes.
`fileName` is `filePath.filename().string()`. -/
def calculateFileSHA256 (fileName : String) (fileSize : Nat) : String :=
  "pseudo_sha256_" ++ toString fileSize ++ "_" ++ toString (hashString fileName)

/-- GltfInstancing::LoadedGltfModel (glb_reader.h): parsed model, file
name, file bytes, the stored content hash and the unique model id. -/
structure LoadedGltfModel where
  model : Model
  fileName : String
  fileBytes : List Nat
  fileHash : String
  uniqueId : Int
deriving DecidableEq

/-- GlbReader::readGlb: the stored `fileHash` is
`calculateFileSHA256` of the path (placeholder branch). -/
def mkLoadedGltfModel (m : Model) (fileName : String) (bytes : List Nat)
    (id : Int) : LoadedGltfModel :=
  ⟨m, fileName, bytes, calculateFileSHA256 fileName bytes.length, id⟩

/-! ## Detector data structures (utilities.h, instancing_detector.h) -/

/-- GltfInstancing::MeshInstanceInfo.  The source stores
`TransformComponents::fromMat4(worldMatrix)` (a glm::decompose, i.e.
floating-point polar decomposition); the embedding keeps the world
matrix that decomposition is applied to. -/
structure MeshInstanceInfo where
  originalGltfIndex : Int
  originalNodeIndex : Int
  originalMeshIndex : Int
  transformMat : Mat4
deriving DecidableEq

/-- GltfInstancing::InstancedMeshGroup. -/
structure InstancedMeshGroup where
  representativeGltfModelIndex : Int
  representativeMeshIndexInModel : Int
  representativeMeshName : String
  meshSignature : Nat
  instances : List MeshInstanceInfo
  representativePrimitiveBoundingBoxes : List BoundingBox
deriving DecidableEq

/-- The group produced by `std::map::operator[]` default construction
(value-initialised). -/
def emptyGroup : InstancedMeshGroup := ⟨0, 0, "", 0, [], []⟩

/-- GltfInstancing::NonInstancedMeshInfo (transform kept as the world
matrix, as for instances). -/
structure NonInstancedMeshInfo where
  originalGltfModelIndex : Int
  originalMeshIndexInModel : Int
  originalNodeIndexInModel : Int
  transformMat : Mat4
deriving DecidableEq

/-- GltfInstancing::InstancingDetectionResult. -/
structure InstancingDetectionResult where
  instancedGroups : List InstancedMeshGroup
  nonInstancedMeshes : List NonInstancedMeshInfo
deriving DecidableEq

/-- Constructor parameters of InstancingDetector. -/
structure DetectorParams where
  geometryTolerance : ℚ
  skipAttributes : List String
  normalTolerance : ℚ
  instanceLimit : Int
deriving DecidableEq

/-- The `std::map<size_t, InstancedMeshGroup>` of potential groups, as
an association list keyed by signature (entry order is immaterial to
every statement below). -/
def Groups : Type := List (Nat × InstancedMeshGroup)

/-- Map lookup. -/
def lookupGroup (gs : Groups) (k : Nat) : Option InstancedMeshGroup :=
  List.lookup k gs

/-- Map write: replaces the entry at `k` or appends a fresh one. -/
def setGroup : Groups → Nat → InstancedMeshGroup → Groups
  | [], k, g => [(k, g)]
  | (k0, g0) :: rest, k, g =>
    if k0 = k then (k, g) :: rest else (k0, g0) :: setGroup rest k g

/-- Mutable state threaded through the traversal: the potential groups,
the non-instanced list, and the `(modelId, meshIndex) → signature`
cache. -/
structure TraverseState where
  groups : List (Nat × InstancedMeshGroup)
  nonInstanced : List NonInstancedMeshInfo
  sigCache : List ((Int × Int) × Nat)
deriving DecidableEq

/-- Signature cache lookup and fill (instancing_detector.cpp lines
667-675 and 771-780). -/
def getOrComputeSignature (P : DetectorParams) (lm : LoadedGltfModel)
    (meshIdx : Int) (mesh : Mesh) (st : TraverseState) : Nat × TraverseState :=
  match List.lookup (lm.uniqueId, meshIdx) st.sigCache with
  | some s => (s, st)
  | none =>
    let s := calculateMeshSignature P.geometryTolerance P.normalTolerance
      P.skipAttributes lm.model mesh
    (s, { st with sigCache := st.sigCache ++ [((lm.uniqueId, meshIdx), s)] })

/-! ## The inbound EXT_mesh_gpu_instancing path -/

/-- Attribute accessor index check used on the extension's attributes
(`idx != -1 && size_t(idx) < accessors.size()`). -/
def extAccessorUsable (m : Model) (idx : Int) : Prop :=
  idx ≠ -1 ∧ 0 ≤ idx ∧ idx.toNat < m.accessors.length

instance (m : Model) (idx : Int) : Decidable (extAccessorUsable m idx) := by
  unfold extAccessorUsable; infer_instance

/-- Instance count of an inbound extension (instancing_detector.cpp
lines 681-695): the count of the first usable accessor in the fixed
order TRANSLATION, ROTATION, SCALE; 0 when none is usable. -/
def extInstanceCount (m : Model) (tIdx rIdx sIdx : Int) : Nat :=
  if extAccessorUsable m tIdx then
    match m.accessors[tIdx.toNat]? with
    | some a => a.count
    | none => 0
  else if extAccessorUsable m rIdx then
    match m.accessors[rIdx.toNat]? with
    | some a => a.count
    | none => 0
  else if extAccessorUsable m sIdx then
    match m.accessors[sIdx.toNat]? with
    | some a => a.count
    | none => 0
  else 0

/-- Per-instance TRS read (instancing_detector.cpp lines 718-749): each
component is read from its accessor when the accessor index was given
(≠ -1), the typed view is valid and `i < view.size()`; otherwise it
silently keeps its default (zero translation, identity quaternion, unit
scale).  The quaternion is stored x,y,z,w in the accessor and
normalised by the source; normalisation is folded into `quatToMat`. -/
def readInstanceTRS (m : Model) (tIdx rIdx sIdx : Int) (i : Nat) :
    Vec3Q × QuatQ × Vec3Q :=
  let t :=
    if tIdx ≠ -1 then
      let v := accessorView m tIdx 12
      if v.status = .valid ∧ i < v.count then readVec3F v i else ⟨0, 0, 0⟩
    else ⟨0, 0, 0⟩
  let r :=
    if rIdx ≠ -1 then
      let v := accessorView m rIdx 16
      if v.status = .valid ∧ i < v.count then
        let q4 := readVec4F v i
        ⟨q4.w, q4.x, q4.y, q4.z⟩
      else identityQuat
    else identityQuat
  let sc :=
    if sIdx ≠ -1 then
      let v := accessorView m sIdx 12
      if v.status = .valid ∧ i < v.count then readVec3F v i else ⟨1, 1, 1⟩
    else ⟨1, 1, 1⟩
  (t, r, sc)

/-- The instance-local TRS matrix (instancing_detector.cpp lines
751-753): `translate(I, t) * mat4_cast(r) * scale(I, s)`. -/
def instanceLocalTRSMatrix (trs : Vec3Q × QuatQ × Vec3Q) : Mat4 :=
  (translateM trs.1).mul ((quatToMat trs.2.1).mul (scaleM trs.2.2))

/-- The candidate instance emitted for extension instance `i`
(instancing_detector.cpp lines 711-763); its source-side transform is
`fromMat4` of the matrix kept here. -/
def extInstanceInfo (lm : LoadedGltfModel) (nodeIdx : Int) (node : Node)
    (worldTransform : Mat4) (tIdx rIdx sIdx : Int) (i : Nat) : MeshInstanceInfo :=
  { originalGltfIndex := lm.uniqueId
    originalNodeIndex := nodeIdx
    originalMeshIndex := node.mesh
    transformMat :=
      worldTransform.mul
        (instanceLocalTRSMatrix (readInstanceTRS lm.model tIdx rIdx sIdx i)) }

/-- Group update performed by the extension path: install the
representative on first contact (with per-primitive bounding boxes in
tolerance mode), then append the new candidate instances. -/
def extUpdatedGroup (P : DetectorParams) (lm : LoadedGltfModel) (node : Node)
    (mesh : Mesh) (baseMeshSignature : Nat)
    (newInstances : List MeshInstanceInfo) (g : InstancedMeshGroup) :
    InstancedMeshGroup :=
  let g2 :=
    if g.instances = [] then
      { g with
        representativeGltfModelIndex := lm.uniqueId
        representativeMeshIndexInModel := node.mesh
        meshSignature := baseMeshSignature
        representativeMeshName := mesh.name
        representativePrimitiveBoundingBoxes :=
          if tolEps < P.geometryTolerance then
            mesh.primitives.map (getPrimitiveBoundingBox lm.model)
          else g.representativePrimitiveBoundingBoxes }
    else g
  { g2 with instances := g2.instances ++ newInstances }

/-- The inbound EXT_mesh_gpu_instancing handling of `traverseNode`
(instancing_detector.cpp lines 663-768): compute (or fetch from cache)
the base mesh signature; resolve the TRANSLATION, ROTATION, SCALE
accessor indices; determine the instance count; when positive, fetch or
default-create the group for the signature, install the representative
on first contact (with per-primitive bounding boxes in tolerance mode),
and push one candidate instance per extension instance — with no
bounding-box verification against an existing group's representative. -/
def extInstancingStep (P : DetectorParams) (lm : LoadedGltfModel) (nodeIdx : Int)
    (node : Node) (mesh : Mesh) (attrs : List (String × Int))
    (worldTransform : Mat4) (st : TraverseState) : TraverseState :=
  let r := getOrComputeSignature P lm node.mesh mesh st
  let baseMeshSignature := r.1
  let st := r.2
  let tIdx := ((attrs.lookup "TRANSLATION").getD (-1) : Int)
  let rIdx := ((attrs.lookup "ROTATION").getD (-1) : Int)
  let sIdx := ((attrs.lookup "SCALE").getD (-1) : Int)
  let instanceCount := extInstanceCount lm.model tIdx rIdx sIdx
  if instanceCount = 0 then st
  else
    { st with
      groups := setGroup st.groups baseMeshSignature
        (extUpdatedGroup P lm node mesh baseMeshSignature
          ((List.range instanceCount).map
            (extInstanceInfo lm nodeIdx node worldTransform tIdx rIdx sIdx))
          ((lookupGroup st.groups baseMeshSignature).getD emptyGroup)) }

/-! ## The plain-mesh path -/

/-- The exact-mode grouping of a plain mesh reference
(instancing_detector.cpp lines 792-800): merge into the group keyed by
the signature, installing the representative on first contact. -/
def plainExactStep (lm : LoadedGltfModel) (node : Node) (mesh : Mesh)
    (signature : Nat) (instanceInfo : MeshInstanceInfo)
    (st : TraverseState) : TraverseState :=
  let g := (lookupGroup st.groups signature).getD emptyGroup
  let g :=
    if g.instances = [] then
      { g with
        representativeGltfModelIndex := lm.uniqueId
        representativeMeshIndexInModel := node.mesh
        meshSignature := signature
        representativeMeshName := mesh.name }
    else g
  { st with
    groups := setGroup st.groups signature
      { g with instances := g.instances ++ [instanceInfo] } }

/-- The bounding-box verification of the plain-mesh tolerance path
(instancing_detector.cpp lines 807-835): the group representative has
exactly one stored box per candidate primitive and every pair, compared
in order, is similar within the tolerance. -/
def bboxVerified (tol : ℚ) (m : Model) (mesh : Mesh) (g : InstancedMeshGroup) : Prop :=
  g.representativePrimitiveBoundingBoxes.length = mesh.primitives.length ∧
  ∀ pr ∈ List.zip g.representativePrimitiveBoundingBoxes
      (mesh.primitives.map (getPrimitiveBoundingBox m)),
    areBoundingBoxesSimilar pr.1 pr.2 tol = true

instance (tol : ℚ) (m : Model) (mesh : Mesh) (g : InstancedMeshGroup) :
    Decidable (bboxVerified tol m mesh g) := by
  unfold bboxVerified; infer_instance

/-- The tolerance-mode grouping of a plain mesh reference
(instancing_detector.cpp lines 801-883).  When a group with the same
signature exists: the candidate joins it only if the representative has
exactly one bounding box per candidate primitive and every pair is
similar within `geometryTolerance`; otherwise the candidate is demoted
to the non-instanced list.  When the signature is new, the candidate
founds the group and its boxes become the representative set. -/
def plainToleranceStep (P : DetectorParams) (lm : LoadedGltfModel) (nodeIdx : Int)
    (node : Node) (mesh : Mesh) (signature : Nat)
    (instanceInfo : MeshInstanceInfo) (st : TraverseState) : TraverseState :=
  match lookupGroup st.groups signature with
  | some existingGroup =>
    if bboxVerified P.geometryTolerance lm.model mesh existingGroup then
      { st with
        groups := setGroup st.groups signature
          { existingGroup with instances := existingGroup.instances ++ [instanceInfo] } }
    else
      { st with
        nonInstanced := st.nonInstanced ++
          [{ originalGltfModelIndex := lm.uniqueId
             originalMeshIndexInModel := node.mesh
             originalNodeIndexInModel := nodeIdx
             transformMat := instanceInfo.transformMat }] }
  | none =>
    { st with
      groups := setGroup st.groups signature
        { emptyGroup with
          representativeGltfModelIndex := lm.uniqueId
          representativeMeshIndexInModel := node.mesh
          meshSignature := signature
          representativeMeshName := mesh.name
          representativePrimitiveBoundingBoxes :=
            mesh.primitives.map (getPrimitiveBoundingBox lm.model)
          instances := [instanceInfo] } }

/-- The plain-mesh handling of `traverseNode` (instancing_detector.cpp
lines 770-884): compute (or fetch) the signature, build the candidate
with the node's world transform, and group it by mode. -/
def plainMeshStep (P : DetectorParams) (lm : LoadedGltfModel) (nodeIdx : Int)
    (node : Node) (mesh : Mesh) (worldTransform : Mat4)
    (st : TraverseState) : TraverseState :=
  let r := getOrComputeSignature P lm node.mesh mesh st
  let signature := r.1
  let st := r.2
  let instanceInfo : MeshInstanceInfo :=
    { originalGltfIndex := lm.uniqueId
      originalNodeIndex := nodeIdx
      originalMeshIndex := node.mesh
      transformMat := worldTransform }
  if P.geometryTolerance ≤ tolEps then
    plainExactStep lm node mesh signature instanceInfo st
  else
    plainToleranceStep P lm nodeIdx node mesh signature instanceInfo st

/-- InstancingDetector::traverseNode (instancing_detector.cpp lines
637-895): depth-first walk accumulating the world transform; a node's
mesh is classified through the extension path when the node carries
EXT_mesh_gpu_instancing and through the plain path otherwise; children
are visited afterwards.  `fuel` bounds the recursion depth (the C++
recursion is unbounded; any fuel exceeding the scene depth is exact).
The `parentNodeIndicesChain` of the source is only pushed and popped,
never read, and is omitted. -/
def traverseNode (P : DetectorParams) (lm : LoadedGltfModel) :
    Nat → Int → Mat4 → TraverseState → TraverseState
  | 0, _, _, st => st
  | fuel + 1, nodeIdx, currentWorldTransform, st =>
    if nodeIdx < 0 ∨ lm.model.nodes.length ≤ nodeIdx.toNat then st
    else
      match lm.model.nodes[nodeIdx.toNat]? with
      | none => st
      | some node =>
        let worldTransform := currentWorldTransform.mul (getLocalTransformMatrix node)
        let st :=
          if 0 ≤ node.mesh ∧ node.mesh.toNat < lm.model.meshes.length then
            match lm.model.meshes[node.mesh.toNat]? with
            | none => st
            | some mesh =>
              match node.gpuInstancing with
              | some attrs =>
                extInstancingStep P lm nodeIdx node mesh attrs worldTransform st
              | none => plainMeshStep P lm nodeIdx node mesh worldTransform st
          else st
        node.children.foldl
          (fun st c => traverseNode P lm fuel c worldTransform st) st

/-! ## Detection driver (InstancingDetector::detect) -/

/-- Whole-file dedup maps (instancing_detector.cpp lines 904-919): fold
over the loaded models; models with an empty hash are skipped; the
first model with a given `fileHash` becomes the representative of that
hash class, later models with the same hash map to it. -/
def buildRepMaps (models : List LoadedGltfModel) :
    List (String × Int) × List (Int × Int) :=
  models.foldl
    (fun maps lm =>
      if lm.fileHash = "" then maps
      else
        match List.lookup lm.fileHash maps.1 with
        | none =>
          (maps.1 ++ [(lm.fileHash, lm.uniqueId)],
           maps.2 ++ [(lm.uniqueId, lm.uniqueId)])
        | some rep => (maps.1, maps.2 ++ [(lm.uniqueId, rep)]))
    ([], [])

/-- Model-id rewriting through `modelIdToRepresentativeModelId`:
`map.count(id) ? map.at(id) : id` (the sources log an error and keep
the id when it is missing). -/
def rewriteId (idMap : List (Int × Int)) (i : Int) : Int :=
  (List.lookup i idMap).getD i

/-- `static_cast<size_t>` of the `int` instance limit, as used in the
threshold comparison. -/
def castSizeT (i : Int) : Nat := (i.emod (U64 : Int)).toNat

/-- A finalized instanced group (instancing_detector.cpp lines
954-968): representative id and every instance id rewritten through the
dedup map. -/
def rewriteGroup (idMap : List (Int × Int)) (g : InstancedMeshGroup) :
    InstancedMeshGroup :=
  { g with
    representativeGltfModelIndex := rewriteId idMap g.representativeGltfModelIndex
    instances := g.instances.map (fun inst =>
      { inst with originalGltfIndex := rewriteId idMap inst.originalGltfIndex }) }

/-- The non-instanced entry a below-threshold candidate is demoted to
(instancing_detector.cpp lines 984-1002). -/
def demoteInstance (idMap : List (Int × Int)) (inst : MeshInstanceInfo) :
    NonInstancedMeshInfo :=
  { originalGltfModelIndex := rewriteId idMap inst.originalGltfIndex
    originalMeshIndexInModel := inst.originalMeshIndex
    originalNodeIndexInModel := inst.originalNodeIndex
    transformMat := inst.transformMat }

/-- Finalization loop body (instancing_detector.cpp lines 941-1004):
groups with at least `static_cast<size_t>(instanceLimit)` candidates
are emitted (rewritten); smaller non-empty groups have every candidate
demoted to a non-instanced entry; the accumulator starts from the
traversal's result. -/
def finalizeGroups (instanceLimit : Int) (idMap : List (Int × Int)) :
    List (Nat × InstancedMeshGroup) → InstancingDetectionResult →
    InstancingDetectionResult
  | [], res => res
  | (_, group) :: rest, res =>
    let res :=
      if castSizeT instanceLimit ≤ group.instances.length then
        { res with instancedGroups := res.instancedGroups ++ [rewriteGroup idMap group] }
      else if group.instances ≠ [] then
        { res with nonInstancedMeshes :=
            res.nonInstancedMeshes ++ group.instances.map (demoteInstance idMap) }
      else res
    finalizeGroups instanceLimit idMap rest res

/-- InstancingDetector::detect (instancing_detector.cpp lines 898-1009):
build the dedup maps, traverse every model's default scene from its
root nodes with the identity world transform, then finalize the groups
against the instance limit.  `fuel` bounds traversal depth as in
`traverseNode`. -/
def detect (P : DetectorParams) (fuel : Nat)
    (loadedModels : List LoadedGltfModel) : InstancingDetectionResult :=
  let idMap := (buildRepMaps loadedModels).2
  let st := loadedModels.foldl
    (fun st lm =>
      if lm.model.scenes = [] then st
      else
        let sceneIndex : Int := if 0 ≤ lm.model.scene then lm.model.scene else 0
        if lm.model.scenes.length ≤ sceneIndex.toNat then st
        else
          match lm.model.scenes[sceneIndex.toNat]? with
          | none => st
          | some scene =>
            scene.nodes.foldl
              (fun st r => traverseNode P lm fuel r Mat4.id st) st)
    ⟨[], [], []⟩
  finalizeGroups P.instanceLimit idMap st.groups ⟨[], st.nonInstanced⟩

/-! ## Element-wise accessor comparison (utilities.cpp) -/

/-- GltfInstancing::compareAccessorData (utilities.cpp lines 364-401):
false when the declared type, componentType, count or normalized flag
differ; when either byte view is invalid, true exactly when the two
statuses are equal; otherwise a byte count comparison followed by a
`memcmp` of the contiguous bytes from `view.data()`. -/
def compareAccessorData (m1 : Model) (a1 : Accessor) (m2 : Model)
    (a2 : Accessor) : Bool :=
  if a1.type ≠ a2.type ∨ a1.componentType ≠ a2.componentType ∨
      a1.count ≠ a2.count ∨ a1.normalized ≠ a2.normalized then false
  else
    let view1 := accessorViewA m1 a1 1
    let view2 := accessorViewA m2 a2 1
    if view1.status ≠ .valid ∨ view2.status ≠ .valid then
      decide (view1.status = view2.status)
    else if view1.count ≠ view2.count then false
    else decide (contiguousBytes view1 = contiguousBytes view2)

/-! ## Assembler pieces (glb_writer.cpp) -/

/-- Output-side assembler state: the consolidated byte buffer, the
output document's bufferViews and accessors, whether the single output
buffer exists (resetInternalState creates it), and the accessor remap
table keyed by (source model id, source accessor index). -/
structure WriterState where
  outputBufferData : List Nat
  bufferViews : List BufferView
  accessors : List Accessor
  hasBuffer : Bool
  accessorRemap : List ((Int × Int) × Int)
deriving DecidableEq

/-- GlbWriter::addDataToBuffer (glb_writer.cpp lines 76-95): pad the
consolidated buffer to a 4-byte boundary, append the data, and append a
bufferView over the appended region; its `byteStride` is set only when
`isVertexBuffer` is true and the passed stride is positive. -/
def addDataToBuffer (st : WriterState) (data : List Nat)
    (byteStrideOptional : Int) (isVertexBuffer : Bool) : Int × WriterState :=
  if ¬ st.hasBuffer then (-1, st)
  else
    let currentOffset := st.outputBufferData.length
    let padding := (4 - currentOffset % 4) % 4
    let padded := st.outputBufferData ++ List.replicate padding 0
    let bv : BufferView :=
      { buffer := 0
        byteOffset := padded.length
        byteLength := data.length
        byteStride :=
          if isVertexBuffer ∧ 0 < byteStrideOptional then
            some byteStrideOptional.toNat
          else none
        target := none }
    (Int.ofNat st.bufferViews.length,
      { st with
        outputBufferData := padded ++ data
        bufferViews := st.bufferViews ++ [bv] })

/-- The element-collection loop of GlbWriter::copyAccessor
(glb_writer.cpp lines 457-468): read `elemLen` bytes per element at
`base + i * stride`, each read bounds-checked against the buffer;
`none` when any element is out of bounds. -/
def collectElements (data : List Nat) (base stride elemLen count : Nat) :
    Option (List Nat) :=
  (List.range count).foldl
    (fun acc i =>
      match acc with
      | none => none
      | some bs =>
        if base + i * stride + elemLen ≤ data.length then
          some (bs ++ sliceBytes data (base + i * stride) elemLen)
        else none)
    (some [])

/-- GlbWriter::copyAccessor (glb_writer.cpp lines 372-492), data path:
consult the remap table; resolve the source bufferView and buffer
(failing with -1 on invalid references or an empty buffer); compute the
element byte length and total length; bounds-check; collect the
de-interleaved element bytes with the accessor's effective stride;
append them through `addDataToBuffer` with `isVertexBuffer = false`;
append a copy of the source accessor with `byteOffset = 0` and
`bufferView` pointing at the new bufferView; record the remapping.
Accessors without a bufferView, and calls with `skipBufferViewRemap`,
append the metadata copy unchanged. -/
def copyAccessor (oldModel : Model) (oldAccessorIndex : Int) (oldModelId : Int)
    (st : WriterState) (skipBufferViewRemap : Bool) : Int × WriterState :=
  match List.lookup (oldModelId, oldAccessorIndex) st.accessorRemap with
  | some idx => (idx, st)
  | none =>
    if ¬ validListIdx oldModel.accessors oldAccessorIndex then (-1, st)
    else
      match oldModel.accessors[oldAccessorIndex.toNat]? with
      | none => (-1, st)
      | some oldAccessor =>
        if skipBufferViewRemap then
          let st := { st with accessors := st.accessors ++ [oldAccessor] }
          let newIndex : Int := Int.ofNat (st.accessors.length - 1)
          (newIndex,
            { st with accessorRemap :=
                st.accessorRemap ++ [((oldModelId, oldAccessorIndex), newIndex)] })
        else if oldAccessor.bufferView < 0 then
          let st := { st with accessors := st.accessors ++ [oldAccessor] }
          let newIndex : Int := Int.ofNat (st.accessors.length - 1)
          (newIndex,
            { st with accessorRemap :=
                st.accessorRemap ++ [((oldModelId, oldAccessorIndex), newIndex)] })
        else
          if ¬ validListIdx oldModel.bufferViews oldAccessor.bufferView then (-1, st)
          else
            match oldModel.bufferViews[oldAccessor.bufferView.toNat]? with
            | none => (-1, st)
            | some bufferView =>
              if ¬ validListIdx oldModel.buffers bufferView.buffer then (-1, st)
              else
                match oldModel.buffers[bufferView.buffer.toNat]? with
                | none => (-1, st)
                | some buffer =>
                  if buffer.data = [] then (-1, st)
                  else
                    let elementByteLength := elementSize oldAccessor
                    if elementByteLength = 0 ∧ 0 < oldAccessor.count then (-1, st)
                    else
                      let totalAccessorByteLength :=
                        oldAccessor.count * elementByteLength
                      let accessorStartOffsetInBuffer :=
                        bufferView.byteOffset + oldAccessor.byteOffset
                      if buffer.data.length <
                          accessorStartOffsetInBuffer + totalAccessorByteLength then
                        (-1, st)
                      else
                        let actualStride := effectiveStride bufferView oldAccessor
                        match collectElements buffer.data
                            accessorStartOffsetInBuffer actualStride
                            elementByteLength oldAccessor.count with
                        | none => (-1, st)
                        | some collectedBytes =>
                          let r := addDataToBuffer st collectedBytes
                            (Int.ofNat elementByteLength) false
                          if r.1 < 0 then (-1, st)
                          else
                            let st := r.2
                            let newAccessor :=
                              { oldAccessor with bufferView := r.1, byteOffset := 0 }
                            let st :=
                              { st with accessors := st.accessors ++ [newAccessor] }
                            let newIndex : Int := Int.ofNat (st.accessors.length - 1)
                            (newIndex,
                              { st with accessorRemap := st.accessorRemap ++
                                  [((oldModelId, oldAccessorIndex), newIndex)] })

/-! ## Spec-side definitions (for refinement comparisons only) -/

/-- Modelled from the spec: the de-interleaved element sequence the
signature engine is claimed to hash — for each element `i` of the
accessor, the `element_size` bytes starting at
`buffer_view.byte_offset + accessor.byte_offset + i * effective_stride`
with `effective_stride` the bufferView's `byte_stride` when present and
`element_size` otherwise; `none` when the accessor's bufferView or
buffer reference does not resolve. -/
def specDeinterleavedBytes (m : Model) (aIdx : Int) : Option (List Nat) :=
  if aIdx < 0 ∨ m.accessors.length ≤ aIdx.toNat then none
  else
    match m.accessors[aIdx.toNat]? with
    | none => none
    | some a =>
      if a.bufferView < 0 ∨ m.bufferViews.length ≤ a.bufferView.toNat then none
      else
        match m.bufferViews[a.bufferView.toNat]? with
        | none => none
        | some bv =>
          if bv.buffer < 0 ∨ m.buffers.length ≤ bv.buffer.toNat then none
          else
            match m.buffers[bv.buffer.toNat]? with
            | none => none
            | some b =>
              let stride := bv.byteStride.getD (elementSize a)
              some ((List.range a.count).flatMap (fun i =>
                sliceBytes b.data (bv.byteOffset + a.byteOffset + i * stride)
                  (elementSize a)))

/-- Modelled from the spec: the shape of a SHA-256 content hash as the
spec requires it — the 64-character lowercase hexadecimal digest of the
file bytes (the format the disabled OpenSSL branch of
`calculateFileSHA256` would produce).  Any genuine SHA-256 hex digest
satisfies this predicate. -/
def specSha256HexFormat (s : String) : Prop :=
  s.length = 64 ∧
  ∀ c ∈ s.data, c.isDigit ∨ (97 ≤ c.toNat ∧ c.toNat ≤ 102)

instance (s : String) : Decidable (specSha256HexFormat s) := by
  unfold specSha256HexFormat; infer_instance

/-! ## Derived descriptions used in statements -/

/-- Whether the accessor's data is tightly packed: its bufferView
declares no `byteStride`, or declares exactly the element size. -/
def tightlyPacked (m : Model) (aIdx : Int) : Prop :=
  match m.accessors[aIdx.toNat]? with
  | none => True
  | some a =>
    match m.bufferViews[a.bufferView.toNat]? with
    | none => True
    | some bv => bv.byteStride = none ∨ bv.byteStride = some (elementSize a)

instance (m : Model) (aIdx : Int) : Decidable (tightlyPacked m aIdx) := by
  unfold tightlyPacked
  split
  · exact inferInstance
  · split <;> exact inferInstance

/-! ## Concrete fixtures for counterexamples and witnesses -/

/-- An interleaved SCALAR, UNSIGNED_SHORT accessor: two elements of two
bytes each at stride 4 within an 8-byte bufferView. -/
def accInterleaved : Accessor := ⟨"SCALAR", 5123, 2, false, 0, 0, [], []⟩

/-- A VEC4, FLOAT accessor over a fully materialised 16-byte buffer. -/
def accVec4f : Accessor := ⟨"VEC4", 5126, 1, false, 0, 1, [], []⟩

/-- Model holding the two accessors above. -/
def mAcc : Model :=
  ⟨[accInterleaved, accVec4f],
   [⟨0, 0, 8, some 4, none⟩, ⟨1, 0, 16, none, none⟩],
   [⟨[1, 2, 3, 4, 5, 6, 7, 8]⟩, ⟨List.replicate 16 0⟩],
   [], [], [], 0⟩

/-- Indices accessor, `normalized = false`. -/
def accIdxN0 : Accessor := ⟨"SCALAR", 5125, 1, false, 0, 0, [], []⟩

/-- The same indices accessor with `normalized = true`. -/
def accIdxN1 : Accessor := ⟨"SCALAR", 5125, 1, true, 0, 0, [], []⟩

/-- Model with the two indices accessors sharing one bufferView. -/
def mC9 : Model :=
  ⟨[accIdxN0, accIdxN1], [⟨0, 0, 4, none, none⟩], [⟨[0, 0, 0, 0]⟩], [], [], [], 0⟩

/-- Primitive whose indices accessor is the `normalized = false` one. -/
def pIdx0 : MeshPrimitive := ⟨4, -1, 0, [], []⟩

/-- Primitive whose indices accessor is the `normalized = true` one. -/
def pIdx1 : MeshPrimitive := ⟨4, -1, 1, [], []⟩

/-- Primitive with a morph target referencing the `normalized = false`
accessor. -/
def pMorph0 : MeshPrimitive := ⟨4, -1, -1, [], [[("POSITION", 0)]]⟩

/-- The same primitive with the morph target referencing the
`normalized = true` accessor instead. -/
def pMorph1 : MeshPrimitive := ⟨4, -1, -1, [], [[("POSITION", 1)]]⟩

/-- TEXCOORD_0 accessor of the first C5 primitive. -/
def accTex0 : Accessor := ⟨"VEC2", 5126, 4, false, 0, -1, [], []⟩

/-- TEXCOORD_0 accessor of the second C5 primitive: different
componentType and count. -/
def accTex1 : Accessor := ⟨"VEC2", 5123, 7, false, 0, -1, [], []⟩

/-- Shared POSITION accessor (declared min and max). -/
def accPosMinMax : Accessor := ⟨"VEC3", 5126, 3, false, 0, -1, [0, 0, 0], [1, 1, 1]⟩

/-- Model for the skipped-attribute fixture. -/
def mC5 : Model := ⟨[accTex0, accTex1, accPosMinMax], [], [], [], [], [], 0⟩

/-- Primitive using `accTex0` for TEXCOORD_0. -/
def pTex0 : MeshPrimitive := ⟨4, -1, -1, [("POSITION", 2), ("TEXCOORD_0", 0)], []⟩

/-- Primitive using `accTex1` for TEXCOORD_0. -/
def pTex1 : MeshPrimitive := ⟨4, -1, -1, [("POSITION", 2), ("TEXCOORD_0", 1)], []⟩

/-- POSITION accessor with bounding box 0..1. -/
def accPos0 : Accessor := ⟨"VEC3", 5126, 3, false, 0, -1, [0, 0, 0], [1, 1, 1]⟩

/-- POSITION accessor with bounding box 100..101 (same count). -/
def accPos100 : Accessor :=
  ⟨"VEC3", 5126, 3, false, 0, -1, [100, 100, 100], [101, 101, 101]⟩

/-- TRANSLATION accessor of the inbound extension (one instance). -/
def accTrans1 : Accessor := ⟨"VEC3", 5126, 1, false, 0, 0, [], []⟩

/-- Primitive of the group-founding mesh. -/
def primNear : MeshPrimitive := ⟨4, -1, -1, [("POSITION", 0)], []⟩

/-- Primitive of the far-away mesh (same tolerance signature, distant
bounding box). -/
def primFar : MeshPrimitive := ⟨4, -1, -1, [("POSITION", 1)], []⟩

/-- Mesh founding the tolerance group. -/
def meshNear : Mesh := ⟨"m0", [primNear]⟩

/-- Mesh joining through the extension path. -/
def meshFar : Mesh := ⟨"m1", [primFar]⟩

/-- Node referencing the founding mesh. -/
def nodePlain : Node := ⟨0, [], [], [], [], [], none⟩

/-- Node referencing the far mesh through EXT_mesh_gpu_instancing. -/
def nodeExt : Node := ⟨1, [], [], [], [], [], some [("TRANSLATION", 2)]⟩

/-- Model for the tolerance-mode extension-path fixture. -/
def mC6 : Model :=
  ⟨[accPos0, accPos100, accTrans1], [⟨0, 0, 12, none, none⟩],
   [⟨List.replicate 12 0⟩], [meshNear, meshFar], [nodePlain, nodeExt], [⟨[0, 1]⟩], 0⟩

/-- Loaded wrapper for `mC6`. -/
def lmC6 : LoadedGltfModel := mkLoadedGltfModel mC6 "c6.glb" [] 0

/-- Detector in tolerance mode, limit 2. -/
def paramsTol : DetectorParams := ⟨mkRat 1 10, [], 0, 2⟩

/-- Detector in exact mode, limit 2. -/
def paramsExact : DetectorParams := ⟨0, [], 0, 2⟩

/-- Detection result on the tolerance fixture. -/
def resC6 : InstancingDetectionResult := detect paramsTol 4 [lmC6]

/-- Extension TRANSLATION accessor with two instances. -/
def accT2 : Accessor := ⟨"VEC3", 5126, 2, false, 0, 0, [], []⟩

/-- Extension ROTATION accessor with a single (identity) instance. -/
def accR1 : Accessor := ⟨"VEC4", 5126, 1, false, 0, 1, [], []⟩

/-- POSITION accessor of the extension fixture's mesh. -/
def accPosC7 : Accessor := ⟨"VEC3", 5126, 3, false, 0, -1, [0, 0, 0], [1, 1, 1]⟩

/-- Mesh of the extension fixture. -/
def meshC7 : Mesh := ⟨"mc7", [⟨4, -1, -1, [("POSITION", 2)], []⟩]⟩

/-- Node carrying the extension with mismatched TRS accessor counts. -/
def nodeC7 : Node := ⟨0, [], [], [], [], [], some [("ROTATION", 1), ("TRANSLATION", 0)]⟩

/-- Model for the mismatched-counts fixture; the ROTATION buffer holds
one identity quaternion (x = y = z = 0, w = 1.0f). -/
def mC7 : Model :=
  ⟨[accT2, accR1, accPosC7],
   [⟨0, 0, 24, none, none⟩, ⟨1, 0, 16, none, none⟩],
   [⟨List.replicate 24 0⟩, ⟨List.replicate 12 0 ++ [0, 0, 128, 63]⟩],
   [meshC7], [nodeC7], [⟨[0]⟩], 0⟩

/-- Loaded wrapper for `mC7`. -/
def lmC7 : LoadedGltfModel := mkLoadedGltfModel mC7 "c7.glb" [] 0

/-- Result of running the extension step on the mismatched-counts
fixture from an empty traversal state. -/
def stC7 : TraverseState :=
  extInstancingStep paramsExact lmC7 0 nodeC7 meshC7
    [("ROTATION", 1), ("TRANSLATION", 0)] Mat4.id ⟨[], [], []⟩

/-- A one-mesh model shared by the two content-identical files. -/
def meshSolo : Mesh := ⟨"cube", [⟨4, -1, -1, [], []⟩]⟩

/-- Node of the one-mesh model. -/
def nodeSolo : Node := ⟨0, [], [], [], [], [], none⟩

/-- The one-mesh model. -/
def mSolo : Model := ⟨[], [], [], [meshSolo], [nodeSolo], [⟨[0]⟩], 0⟩

/-- The shared file contents of the two duplicate files. -/
def demoBytes : List Nat := [103, 108, 84, 70]

/-- First duplicate: contents `demoBytes`, name a.glb, id 0. -/
def lmDupA : LoadedGltfModel := mkLoadedGltfModel mSolo "a.glb" demoBytes 0

/-- Second duplicate: identical contents, name b.glb, id 1. -/
def lmDupB : LoadedGltfModel := mkLoadedGltfModel mSolo "b.glb" demoBytes 1

/-- Detection over the two content-identical models. -/
def resDup : InstancingDetectionResult := detect paramsExact 4 [lmDupA, lmDupB]

/-- Two-element SCALAR, UNSIGNED_BYTE accessor to copy (accessor byte
offset 2 within its bufferView). -/
def accUByte2 : Accessor := ⟨"SCALAR", 5121, 2, false, 2, 0, [], []⟩

/-- Source model of the copy fixture. -/
def mC3 : Model := ⟨[accUByte2], [⟨0, 0, 4, none, none⟩], [⟨[5, 5, 7, 9]⟩], [], [], [], 0⟩

/-- A freshly reset writer state. -/
def wState0 : WriterState := ⟨[], [], [], true, []⟩

/-- Result of copying the accessor into the fresh writer. -/
def wC3 : Int × WriterState := copyAccessor mC3 0 0 wState0 false

/-- Candidate instances for the finalization witness. -/
def instA : MeshInstanceInfo := ⟨0, 0, 0, Mat4.id⟩

/-- Second candidate of the large group. -/
def instB : MeshInstanceInfo := ⟨1, 1, 0, Mat4.id⟩

/-- Sole candidate of the small group. -/
def instC : MeshInstanceInfo := ⟨2, 0, 1, Mat4.id⟩

/-- A group meeting the instance limit 2. -/
def grpBig : InstancedMeshGroup := ⟨0, 0, "g", 11, [instA, instB], []⟩

/-- A group below the instance limit 2. -/
def grpSmall : InstancedMeshGroup := ⟨2, 1, "h", 22, [instC], []⟩

/-- Dedup map for the finalization witness (model 1 is a duplicate of
model 0). -/
def idMapW : List (Int × Int) := [(0, 0), (1, 0), (2, 2)]

/-- Group map for the finalization witness. -/
def groupsW : List (Nat × InstancedMeshGroup) := [(11, grpBig), (22, grpSmall)]

/-- An established tolerance-mode group whose representative box is the
unit box (for the plain-path verification witness). -/
def grpNear : InstancedMeshGroup :=
  ⟨0, 0, "m0", 5, [instA], [⟨⟨0, 0, 0⟩, ⟨1, 1, 1⟩⟩]⟩

/-- Traversal state already holding `grpNear` under signature 5. -/
def stNear : TraverseState := ⟨[(5, grpNear)], [], []⟩

/-! ## Theorems -/

/-- C1: the stored content hash is not an SHA-256 of the file bytes and
whole-file deduplication fails on content-identical files.  At the
concrete input — two loaded models with identical file bytes named
a.glb and b.glb — the stored hash fails the SHA-256 hex-digest format,
the two stored hashes differ (the placeholder hashes name and size, not
content), and the detector's output carries candidate records from both
model ids 0 and 1 instead of collapsing them to one representative. -/
theorem C1_sha256_dedup_code_bug :
    lmDupA.fileBytes = lmDupB.fileBytes ∧
    ¬ specSha256HexFormat lmDupA.fileHash ∧
    lmDupA.fileHash ≠ lmDupB.fileHash ∧
    (∃ g ∈ resDup.instancedGroups,
      (∃ i1 ∈ g.instances, i1.originalGltfIndex = 0) ∧
      (∃ i2 ∈ g.instances, i2.originalGltfIndex = 1)) := by
  decide

/-- C2 counterexample: for the interleaved SCALAR UNSIGNED_SHORT
accessor (stride 4, element size 2) the signature engine hashes the
contiguous run `[1, 2, 3, 4]`, not the de-interleaved element sequence
`[1, 2, 5, 6]` required by the claim. -/
theorem C2_interleaved_cex :
    hashAccessorDataR mAcc 0 "_CUSTOM" 0 = .typedViewData [1, 2, 3, 4] ∧
    specDeinterleavedBytes mAcc 0 = some [1, 2, 5, 6] ∧
    some [1, 2, 3, 4] ≠ specDeinterleavedBytes mAcc 0 := by
  decide

/-- C4 counterexample: the VEC4 FLOAT accessor has its full 16 bytes in
memory, yet the signature engine emits the degraded fallback hash
because the (type, componentType) pair is outside the typed-view
whitelist — contradicting the claim that data in memory is always
hashed regardless of element and component type. -/
theorem C4_vec4_fallback_cex :
    hashAccessorDataR mAcc 1 "TANGENT" 0 = .fallback accVec4f .wrongSizeT ∧
    (∃ b, mAcc.buffers[1]? = some b ∧ b.data ≠ []) := by
  decide

/-- C9 counterexample: two primitives identical except for the indices
accessor's `normalized` flag receive the same exact-mode signature (the
signature never mixes that flag in for indices), and likewise two
primitives identical except for a morph-target accessor's `normalized`
flag (the morph-target branch mixes in only type, componentType and the
data hash, omitting both count and normalized), while the element-wise
data-equality predicate rejects the differing accessor pair. -/
theorem C9_normalized_cex :
    calculatePrimitiveSignatureExact mC9 pIdx0 = calculatePrimitiveSignatureExact mC9 pIdx1 ∧
    calculatePrimitiveSignatureExact mC9 pMorph0 =
      calculatePrimitiveSignatureExact mC9 pMorph1 ∧
    compareAccessorData mC9 accIdxN0 mC9 accIdxN1 = false := by
  decide

/-- C5 counterexample: with TEXCOORD_0 in `skip_attribute_data_hash`,
two primitives whose TEXCOORD_0 accessors differ in both componentType
and count receive the *same* tolerance-mode signature — the skipped
attribute contributes only its name, not its accessor metadata, so the
claimed signature separation does not happen. -/
theorem C5_skipped_metadata_cex :
    calculatePrimitiveSignature (mkRat 1 10) 0 ["TEXCOORD_0"] mC5 pTex0 =
      calculatePrimitiveSignature (mkRat 1 10) 0 ["TEXCOORD_0"] mC5 pTex1 ∧
    accTex0.componentType ≠ accTex1.componentType ∧
    accTex0.count ≠ accTex1.count ∧
    pTex0.attributes.lookup "TEXCOORD_0" = some 0 ∧
    pTex1.attributes.lookup "TEXCOORD_0" = some 1 := by
  decide

/-- C6 counterexample: in tolerance mode (tolerance 1/10) a candidate
arriving through the inbound EXT_mesh_gpu_instancing path joins an
existing group purely by signature: the resulting group holds the
extension candidate (mesh index 1) although its primitive bounding box
(100..101) is nowhere near the representative's (0..1). -/
theorem C6_ext_path_unverified_cex :
    ∃ g ∈ resC6.instancedGroups,
      g.instances.length = 2 ∧
      (∃ inst ∈ g.instances, inst.originalMeshIndex = 1) ∧
      areBoundingBoxesSimilar (g.representativePrimitiveBoundingBoxes.headD emptyBox)
        (getPrimitiveBoundingBox mC6 primFar) (mkRat 1 10) = false := by
  decide

/-- C7 counterexample: the node's extension carries a TRANSLATION
accessor of count 2 and a ROTATION accessor of count 1; the detector
emits two candidate instances without any consistency check, so "N is
the count of whichever attribute accessor is present" fails for the
present ROTATION accessor (whose count is 1, not 2). -/
theorem C7_count_mismatch_cex :
    (lookupGroup stC7.groups (calculateMeshSignature 0 0 [] mC7 meshC7)).map
        (fun g => g.instances.length) = some 2 ∧
    extAccessorUsable mC7 1 ∧
    (mC7.accessors[1]?).map Accessor.count = some 1 ∧ (2 : Nat) ≠ 1 := by
  decide

/-! ## Helper lemmas -/

/-- Writing a group and reading it back at the same key. -/
theorem lookupGroup_setGroup_self (gs : Groups) (k : Nat) (g : InstancedMeshGroup) :
    lookupGroup (setGroup gs k g) k = some g := by
  induction gs with
  | nil => simp [setGroup, lookupGroup, List.lookup]
  | cons p rest ih =>
    obtain ⟨k0, g0⟩ := p
    by_cases h : k0 = k
    · subst h
      simp [setGroup, lookupGroup, List.lookup]
    · have hne : (k == k0) = false := by
        simp [Ne.symm h]
      simp [setGroup, lookupGroup, List.lookup, h, hne] at ih ⊢
      exact ih

/-- The signature cache fill does not touch groups or the non-instanced
list. -/
theorem getOrComputeSignature_state (P : DetectorParams) (lm : LoadedGltfModel)
    (mi : Int) (mesh : Mesh) (st : TraverseState) :
    (getOrComputeSignature P lm mi mesh st).2.groups = st.groups ∧
    (getOrComputeSignature P lm mi mesh st).2.nonInstanced = st.nonInstanced := by
  unfold getOrComputeSignature
  split <;> simp

/-- Inversion of a successfully constructed accessor view: the
bufferView and buffer resolve, `sizeof(T)` equals the element size, and
the view's fields are the resolved ones. -/
theorem accessorViewA_valid_inv (m : Model) (a : Accessor) (s : Nat)
    (h : (accessorViewA m a s).status = .valid) :
    validListIdx m.bufferViews a.bufferView ∧
    ∃ bv, m.bufferViews[a.bufferView.toNat]? = some bv ∧
      validListIdx m.buffers bv.buffer ∧
      ∃ b, m.buffers[bv.buffer.toNat]? = some b ∧
        s = elementSize a ∧ elementSize a ≠ 0 ∧
        accessorViewA m a s =
          ⟨.valid, bv.byteOffset + a.byteOffset, effectiveStride bv a, elementSize a,
            a.count, b.data⟩ := by
  unfold accessorViewA at h
  split at h
  · simp [badView] at h
  rename_i hidx
  split at h
  · simp [badView] at h
  rename_i bv hbv
  split at h
  · simp [badView] at h
  rename_i hbufidx
  split at h
  · simp [badView] at h
  rename_i b hbuf
  split at h
  · simp [badView] at h
  rename_i helem
  split at h
  · simp [badView] at h
  rename_i hfit
  split at h
  · simp [badView] at h
  rename_i hsize
  split at h
  · simp [badView] at h
  rename_i hbounds
  have hidx2 := hidx
  have hbufidx2 := hbufidx
  push_neg at hidx2 hbufidx2
  refine ⟨⟨hidx2.1, hidx2.2⟩, bv, hbv, ⟨hbufidx2.1, hbufidx2.2⟩, b, hbuf,
    not_not.mp hsize, helem, ?_⟩
  unfold accessorViewA
  rw [if_neg hidx]
  simp only [hbv]
  rw [if_neg hbufidx]
  simp only [hbuf]
  rw [if_neg helem, if_neg hfit, if_neg hsize, if_neg hbounds]

/-- A valid view's count is the accessor's count. -/
theorem accessorViewA_valid_count (m : Model) (a : Accessor) (s : Nat)
    (h : (accessorViewA m a s).status = .valid) :
    (accessorViewA m a s).count = a.count := by
  obtain ⟨-, bv, -, -, b, -, -, -, heq⟩ := accessorViewA_valid_inv m a s h
  rw [heq]

/-- Whitelisted typed accessors have nonzero component counts and
sizes. -/
theorem typedViewSupported_sizes (a : Accessor) (h : typedViewSupported a) :
    computeNumberOfComponents a.type ≠ 0 ∧
    computeByteSizeOfComponent a.componentType ≠ 0 := by
  rcases h with ⟨h1, h2⟩ | ⟨h1, h2⟩ | ⟨h1, h2⟩ | ⟨h1, h2⟩ <;>
    rw [h1, h2] <;> decide

/-- A contiguous run of `n * elem` bytes is the concatenation of the
`n` element slices when elements are packed at stride `elem`. -/
theorem take_mul_eq_flatMap (data : List Nat) (elem : Nat) :
    ∀ (n base : Nat),
      (data.drop base).take (n * elem) =
        (List.range n).flatMap (fun i => (data.drop (base + i * elem)).take elem) := by
  intro n
  induction n with
  | zero => intro base; simp
  | succ n ih =>
    intro base
    rw [List.range_succ, List.flatMap_append, Nat.succ_mul, List.take_add,
      List.drop_drop, ih base, List.flatMap_singleton]

/-- The element-collection loop succeeds and produces the concatenated
element slices when every element read is in bounds. -/
theorem collectElements_eq_of_bounds (data : List Nat) (base stride elemLen : Nat) :
    ∀ n, (∀ i < n, base + i * stride + elemLen ≤ data.length) →
      collectElements data base stride elemLen n =
        some ((List.range n).flatMap (fun i => sliceBytes data (base + i * stride) elemLen)) := by
  intro n
  induction n with
  | zero => intro _; simp [collectElements]
  | succ n ih =>
    intro hb
    have hbn : ∀ i < n, base + i * stride + elemLen ≤ data.length := by
      intro i hi; exact hb i (Nat.lt_succ_of_lt hi)
    have ihn := ih hbn
    unfold collectElements at ihn ⊢
    rw [List.range_succ, List.foldl_append, ihn, List.flatMap_append,
      List.flatMap_singleton]
    simp [hb n (Nat.lt_succ_self n)]

/-- When every element read is in bounds, each slice has full length,
so the collected bytes measure `count * elemLen`. -/
theorem flatMap_slices_length (data : List Nat) (base stride elemLen : Nat) :
    ∀ n, (∀ i < n, base + i * stride + elemLen ≤ data.length) →
      ((List.range n).flatMap (fun i => sliceBytes data (base + i * stride) elemLen)).length
        = n * elemLen := by
  intro n
  induction n with
  | zero => intro _; simp
  | succ n ih =>
    intro hb
    have hbn : ∀ i < n, base + i * stride + elemLen ≤ data.length := by
      intro i hi; exact hb i (Nat.lt_succ_of_lt hi)
    rw [List.range_succ, List.flatMap_append, List.flatMap_singleton, List.length_append,
      ih hbn]
    have hlast := hb n (Nat.lt_succ_self n)
    have : (sliceBytes data (base + n * stride) elemLen).length = elemLen := by
      unfold sliceBytes
      rw [List.length_take, List.length_drop]
      omega
    rw [this, Nat.succ_mul]

/-- The instanced groups of the finalization are the rewritten groups
meeting the threshold, in group-map order. -/
theorem finalizeGroups_instanced_eq (L : Int) (M : List (Int × Int)) :
    ∀ (gs : List (Nat × InstancedMeshGroup)) (res : InstancingDetectionResult),
      (finalizeGroups L M gs res).instancedGroups =
        res.instancedGroups ++ gs.filterMap (fun p =>
          if castSizeT L ≤ p.2.instances.length then some (rewriteGroup M p.2) else none) := by
  intro gs
  induction gs with
  | nil => intro res; simp [finalizeGroups]
  | cons p rest ih =>
    intro res
    obtain ⟨k, g⟩ := p
    unfold finalizeGroups
    by_cases h : castSizeT L ≤ g.instances.length
    · rw [if_pos h, ih]
      simp [h]
    · rw [if_neg h]
      by_cases h2 : g.instances ≠ []
      · rw [if_pos h2, ih]
        simp [h]
      · rw [if_neg h2, ih]
        simp [h]

/-- The non-instanced list of the finalization is the traversal's list
followed by the demoted candidates of every below-threshold group. -/
theorem finalizeGroups_nonInstanced_eq (L : Int) (M : List (Int × Int)) :
    ∀ (gs : List (Nat × InstancedMeshGroup)) (res : InstancingDetectionResult),
      (finalizeGroups L M gs res).nonInstancedMeshes =
        res.nonInstancedMeshes ++ gs.flatMap (fun p =>
          if castSizeT L ≤ p.2.instances.length then []
          else p.2.instances.map (demoteInstance M)) := by
  intro gs
  induction gs with
  | nil => intro res; simp [finalizeGroups]
  | cons p rest ih =>
    intro res
    obtain ⟨k, g⟩ := p
    unfold finalizeGroups
    by_cases h : castSizeT L ≤ g.instances.length
    · rw [if_pos h, ih]
      simp [h]
    · rw [if_neg h]
      by_cases h2 : g.instances ≠ []
      · rw [if_pos h2, ih]
        simp [h]
      · rw [if_neg h2, ih]
        have h3 : g.instances = [] := not_not.mp h2
        simp [h, h3]

/-- The size_t cast of an in-range non-negative int is its natural
value. -/
theorem castSizeT_eq (L : Int) (h0 : 0 ≤ L) (h1 : L < 2147483648) :
    castSizeT L = L.toNat := by
  unfold castSizeT
  have hU : ((U64 : Nat) : Int) = (18446744073709551616 : Int) := by norm_num [U64]
  show (L % ((U64 : Nat) : Int)).toNat = L.toNat
  rw [Int.emod_eq_of_lt h0 (by rw [hU]; omega)]

/-- C6 (amended): on the plain-mesh path in tolerance mode, a candidate
whose signature matches an existing group joins it exactly when the
bounding-box verification succeeds (one representative box per
candidate primitive, every pair similar within `geometry_tolerance`);
when the verification fails the candidate becomes a non-instanced entry
and the groups are unchanged.  (The inbound EXT_mesh_gpu_instancing
path performs no such verification — see the counterexample.) -/
theorem C6_plain_path_verification (P : DetectorParams) (lm : LoadedGltfModel)
    (nodeIdx : Int) (node : Node) (mesh : Mesh) (signature : Nat)
    (instanceInfo : MeshInstanceInfo) (st : TraverseState) (g : InstancedMeshGroup)
    (hg : lookupGroup st.groups signature = some g) :
    (bboxVerified P.geometryTolerance lm.model mesh g →
      (plainToleranceStep P lm nodeIdx node mesh signature instanceInfo st).groups =
        setGroup st.groups signature
          { g with instances := g.instances ++ [instanceInfo] } ∧
      (plainToleranceStep P lm nodeIdx node mesh signature instanceInfo st).nonInstanced =
        st.nonInstanced) ∧
    (¬ bboxVerified P.geometryTolerance lm.model mesh g →
      (plainToleranceStep P lm nodeIdx node mesh signature instanceInfo st).groups =
        st.groups ∧
      (plainToleranceStep P lm nodeIdx node mesh signature instanceInfo st).nonInstanced =
        st.nonInstanced ++
        [{ originalGltfModelIndex := lm.uniqueId
           originalMeshIndexInModel := node.mesh
           originalNodeIndexInModel := nodeIdx
           transformMat := instanceInfo.transformMat }]) := by
  simp only [plainToleranceStep, hg]
  constructor
  · intro hv
    rw [if_pos hv]
    exact ⟨rfl, rfl⟩
  · intro hv
    rw [if_neg hv]
    exact ⟨rfl, rfl⟩

/-- C6 witness: the verification theorem applied to a concrete state —
the far mesh's box (100..101) fails verification against the stored
representative box (0..1) under tolerance 1/10, so the candidate is
demoted and the group map stays unchanged. -/
theorem C6_plain_path_verification_witness :
    (plainToleranceStep paramsTol lmC6 1 nodeExt meshFar 5 instB stNear).groups =
        stNear.groups ∧
    (plainToleranceStep paramsTol lmC6 1 nodeExt meshFar 5 instB stNear).nonInstanced =
        stNear.nonInstanced ++
        [{ originalGltfModelIndex := lmC6.uniqueId
           originalMeshIndexInModel := nodeExt.mesh
           originalNodeIndexInModel := 1
           transformMat := instB.transformMat }] :=
  (C6_plain_path_verification paramsTol lmC6 1 nodeExt meshFar 5 instB stNear grpNear
    (by decide)).2 (by decide)

/-- The extension path's group update appends exactly the new
candidates to whatever instances the group already had. -/
theorem extUpdatedGroup_instances (P : DetectorParams) (lm : LoadedGltfModel)
    (node : Node) (mesh : Mesh) (sig : Nat) (newInstances : List MeshInstanceInfo)
    (g : InstancedMeshGroup) :
    (extUpdatedGroup P lm node mesh sig newInstances g).instances =
      g.instances ++ newInstances := by
  unfold extUpdatedGroup
  split <;> rfl

/-- C7 (amended): for a node carrying the inbound extension, when the
determined instance count N is positive the detector pushes exactly N
candidate instances into the signature's group — N being the count of
the first usable accessor in the order TRANSLATION, ROTATION, SCALE,
with no cross-accessor consistency check — and candidate `i` carries
the world matrix `W_node * T_i * R_i * S_i` (`W_node` the node's
accumulated world transform, with components defaulting to identity
where unreadable; the source stores this matrix decomposed to TRS). -/
theorem C7_ext_path_emission (P : DetectorParams) (lm : LoadedGltfModel)
    (nodeIdx : Int) (node : Node) (mesh : Mesh) (attrs : List (String × Int))
    (world : Mat4) (st : TraverseState)
    (hN : extInstanceCount lm.model ((attrs.lookup "TRANSLATION").getD (-1))
        ((attrs.lookup "ROTATION").getD (-1)) ((attrs.lookup "SCALE").getD (-1)) ≠ 0) :
    ∃ g, lookupGroup
        (extInstancingStep P lm nodeIdx node mesh attrs world st).groups
        (getOrComputeSignature P lm node.mesh mesh st).1 = some g ∧
      g.instances = ((lookupGroup st.groups
          (getOrComputeSignature P lm node.mesh mesh st).1).getD emptyGroup).instances ++
        (List.range (extInstanceCount lm.model ((attrs.lookup "TRANSLATION").getD (-1))
            ((attrs.lookup "ROTATION").getD (-1)) ((attrs.lookup "SCALE").getD (-1)))).map
          (fun i =>
            { originalGltfIndex := lm.uniqueId
              originalNodeIndex := nodeIdx
              originalMeshIndex := node.mesh
              transformMat := world.mul (instanceLocalTRSMatrix
                (readInstanceTRS lm.model ((attrs.lookup "TRANSLATION").getD (-1))
                  ((attrs.lookup "ROTATION").getD (-1))
                  ((attrs.lookup "SCALE").getD (-1)) i)) }) ∧
      (extInstancingStep P lm nodeIdx node mesh attrs world st).nonInstanced =
        st.nonInstanced := by
  have hpres := getOrComputeSignature_state P lm node.mesh mesh st
  simp only [extInstancingStep]
  rw [if_neg hN]
  refine ⟨_, lookupGroup_setGroup_self _ _ _, ?_, ?_⟩
  · rw [extUpdatedGroup_instances, hpres.1]
    rfl
  · exact hpres.2

/-- C7 witness: the emission theorem applied to the mismatched-counts
fixture — two candidates (the TRANSLATION count) are pushed even though
the ROTATION accessor holds a single instance. -/
theorem C7_ext_path_emission_witness :
    ∃ g, lookupGroup stC7.groups
        (getOrComputeSignature paramsExact lmC7 nodeC7.mesh meshC7 ⟨[], [], []⟩).1 = some g ∧
      g.instances = ((lookupGroup (⟨[], [], []⟩ : TraverseState).groups
          (getOrComputeSignature paramsExact lmC7 nodeC7.mesh meshC7 ⟨[], [], []⟩).1).getD
          emptyGroup).instances ++
        (List.range (extInstanceCount lmC7.model
            (([("ROTATION", (1 : Int)), ("TRANSLATION", 0)].lookup "TRANSLATION").getD (-1))
            (([("ROTATION", (1 : Int)), ("TRANSLATION", 0)].lookup "ROTATION").getD (-1))
            (([("ROTATION", (1 : Int)), ("TRANSLATION", 0)].lookup "SCALE").getD (-1)))).map
          (fun i =>
            { originalGltfIndex := lmC7.uniqueId
              originalNodeIndex := 0
              originalMeshIndex := nodeC7.mesh
              transformMat := Mat4.id.mul (instanceLocalTRSMatrix
                (readInstanceTRS lmC7.model
                  (([("ROTATION", (1 : Int)), ("TRANSLATION", 0)].lookup "TRANSLATION").getD (-1))
                  (([("ROTATION", (1 : Int)), ("TRANSLATION", 0)].lookup "ROTATION").getD (-1))
                  (([("ROTATION", (1 : Int)), ("TRANSLATION", 0)].lookup "SCALE").getD (-1))
                  i)) }) ∧
      stC7.nonInstanced = (⟨[], [], []⟩ : TraverseState).nonInstanced :=
  C7_ext_path_emission paramsExact lmC7 0 nodeC7 meshC7
    [("ROTATION", 1), ("TRANSLATION", 0)] Mat4.id ⟨[], [], []⟩ (by decide)

/-- C10: the inbound extension's instance count is the count of the
first usable accessor in the fixed order TRANSLATION, ROTATION, SCALE,
and for any instance index at or beyond a component accessor's length —
or when that component's accessor is absent or invalid — the component
read silently defaults to identity (zero translation, identity
quaternion, unit scale) instead of producing an error. -/
theorem C10_first_present_and_identity_defaults (m : Model) (tIdx rIdx sIdx : Int)
    (i : Nat) :
    (∀ a, extAccessorUsable m tIdx → m.accessors[tIdx.toNat]? = some a →
      extInstanceCount m tIdx rIdx sIdx = a.count) ∧
    (∀ a, ¬ extAccessorUsable m tIdx → extAccessorUsable m rIdx →
      m.accessors[rIdx.toNat]? = some a → extInstanceCount m tIdx rIdx sIdx = a.count) ∧
    (∀ a, ¬ extAccessorUsable m tIdx → ¬ extAccessorUsable m rIdx →
      extAccessorUsable m sIdx → m.accessors[sIdx.toNat]? = some a →
      extInstanceCount m tIdx rIdx sIdx = a.count) ∧
    (¬ (tIdx ≠ -1 ∧ (accessorView m tIdx 12).status = .valid ∧
        i < (accessorView m tIdx 12).count) →
      (readInstanceTRS m tIdx rIdx sIdx i).1 = ⟨0, 0, 0⟩) ∧
    (¬ (rIdx ≠ -1 ∧ (accessorView m rIdx 16).status = .valid ∧
        i < (accessorView m rIdx 16).count) →
      (readInstanceTRS m tIdx rIdx sIdx i).2.1 = identityQuat) ∧
    (¬ (sIdx ≠ -1 ∧ (accessorView m sIdx 12).status = .valid ∧
        i < (accessorView m sIdx 12).count) →
      (readInstanceTRS m tIdx rIdx sIdx i).2.2 = ⟨1, 1, 1⟩) := by
  refine ⟨?_, ?_, ?_, ?_, ?_, ?_⟩
  · intro a hT ha
    unfold extInstanceCount
    rw [if_pos hT, ha]
  · intro a hT hR ha
    unfold extInstanceCount
    rw [if_neg hT, if_pos hR, ha]
  · intro a hT hR hS ha
    unfold extInstanceCount
    rw [if_neg hT, if_neg hR, if_pos hS, ha]
  · intro h
    unfold readInstanceTRS
    simp only
    by_cases h1 : tIdx = -1
    · rw [if_neg (by simpa using h1)]
    · rw [if_pos h1]
      rw [if_neg (by
        intro hc
        exact h ⟨h1, hc⟩)]
  · intro h
    unfold readInstanceTRS
    simp only
    by_cases h1 : rIdx = -1
    · rw [if_neg (by simpa using h1)]
    · rw [if_pos h1]
      rw [if_neg (by
        intro hc
        exact h ⟨h1, hc⟩)]
  · intro h
    unfold readInstanceTRS
    simp only
    by_cases h1 : sIdx = -1
    · rw [if_neg (by simpa using h1)]
    · rw [if_pos h1]
      rw [if_neg (by
        intro hc
        exact h ⟨h1, hc⟩)]

/-- C10 witness: on the mismatched-counts fixture, the instance count
is the TRANSLATION accessor's count 2, and instance index 1 — beyond
the single-entry ROTATION accessor — reads the identity quaternion. -/
theorem C10_first_present_and_identity_defaults_witness :
    extAccessorUsable mC7 0 ∧ mC7.accessors[(0 : Int).toNat]? = some accT2 ∧
    extInstanceCount mC7 0 1 (-1) = accT2.count ∧ accT2.count = 2 ∧
    ¬ ((1 : Int) ≠ -1 ∧ (accessorView mC7 1 16).status = .valid ∧
        1 < (accessorView mC7 1 16).count) ∧
    (readInstanceTRS mC7 0 1 (-1) 1).2.1 = identityQuat := by
  refine ⟨by decide, by decide, ?_, by decide, by decide, ?_⟩
  · exact (C10_first_present_and_identity_defaults mC7 0 1 (-1) 1).1 accT2
      (by decide) (by decide)
  · exact (C10_first_present_and_identity_defaults mC7 0 1 (-1) 1).2.2.2.2.1
      (by decide)

/-- C8: with a sound (non-negative, int-ranged) instance limit, the
finalization emits every group meeting the threshold as an instanced
group (so every emitted group holds at least `instance_limit`
candidates), demotes every candidate of every below-threshold group to
a non-instanced entry with its model id rewritten through the dedup
representative map, and drops no candidate. -/
theorem C8_finalization_threshold (L : Int) (M : List (Int × Int))
    (gs : List (Nat × InstancedMeshGroup)) (non0 : List NonInstancedMeshInfo)
    (h0 : 0 ≤ L) (h1 : L < 2147483648) :
    (∀ g ∈ (finalizeGroups L M gs ⟨[], non0⟩).instancedGroups,
      L.toNat ≤ g.instances.length) ∧
    (∀ p ∈ gs, L.toNat ≤ p.2.instances.length →
      rewriteGroup M p.2 ∈ (finalizeGroups L M gs ⟨[], non0⟩).instancedGroups) ∧
    (∀ p ∈ gs, p.2.instances.length < L.toNat →
      ∀ inst ∈ p.2.instances,
        demoteInstance M inst ∈ (finalizeGroups L M gs ⟨[], non0⟩).nonInstancedMeshes) ∧
    (∀ p ∈ gs, ∀ inst ∈ p.2.instances,
      (∃ g ∈ (finalizeGroups L M gs ⟨[], non0⟩).instancedGroups,
        { inst with originalGltfIndex := rewriteId M inst.originalGltfIndex } ∈ g.instances) ∨
      demoteInstance M inst ∈ (finalizeGroups L M gs ⟨[], non0⟩).nonInstancedMeshes) := by
  have hcast := castSizeT_eq L h0 h1
  have hi := finalizeGroups_instanced_eq L M gs ⟨[], non0⟩
  have hn := finalizeGroups_nonInstanced_eq L M gs ⟨[], non0⟩
  have memInst : ∀ p ∈ gs, L.toNat ≤ p.2.instances.length →
      rewriteGroup M p.2 ∈ (finalizeGroups L M gs ⟨[], non0⟩).instancedGroups := by
    intro p hp hlen
    rw [hi]
    refine List.mem_append_right _ ?_
    exact List.mem_filterMap.mpr ⟨p, hp, by rw [if_pos (hcast ▸ hlen)]⟩
  have memNon : ∀ p ∈ gs, p.2.instances.length < L.toNat →
      ∀ inst ∈ p.2.instances,
        demoteInstance M inst ∈ (finalizeGroups L M gs ⟨[], non0⟩).nonInstancedMeshes := by
    intro p hp hlen inst hinst
    rw [hn]
    refine List.mem_append_right _ ?_
    refine List.mem_flatMap.mpr ⟨p, hp, ?_⟩
    rw [if_neg (by rw [hcast]; omega)]
    exact List.mem_map_of_mem _ hinst
  refine ⟨?_, memInst, memNon, ?_⟩
  · intro g hg
    rw [hi] at hg
    rcases List.mem_append.mp hg with h | h
    · simp at h
    · obtain ⟨p, hp, hsome⟩ := List.mem_filterMap.mp h
      by_cases hc : castSizeT L ≤ p.2.instances.length
      · rw [if_pos hc] at hsome
        have : g = rewriteGroup M p.2 := by
          injection hsome with hval
          exact hval.symm
        rw [this]
        unfold rewriteGroup
        simp only [List.length_map]
        omega
      · rw [if_neg hc] at hsome
        exact absurd hsome (by simp)
  · intro p hp inst hinst
    by_cases hc : L.toNat ≤ p.2.instances.length
    · left
      refine ⟨rewriteGroup M p.2, memInst p hp hc, ?_⟩
      unfold rewriteGroup
      simp only
      exact List.mem_map_of_mem _ hinst
    · right
      exact memNon p hp (by omega) inst hinst

/-- C8 witness: the finalization theorem on a concrete group map with
limit 2 — the two-candidate group survives (rewritten) and the single
candidate of the small group is demoted. -/
theorem C8_finalization_threshold_witness :
    (∀ g ∈ (finalizeGroups 2 idMapW groupsW ⟨[], []⟩).instancedGroups,
      (2 : Int).toNat ≤ g.instances.length) ∧
    (∀ p ∈ groupsW, (2 : Int).toNat ≤ p.2.instances.length →
      rewriteGroup idMapW p.2 ∈ (finalizeGroups 2 idMapW groupsW ⟨[], []⟩).instancedGroups) ∧
    (∀ p ∈ groupsW, p.2.instances.length < (2 : Int).toNat →
      ∀ inst ∈ p.2.instances,
        demoteInstance idMapW inst ∈
          (finalizeGroups 2 idMapW groupsW ⟨[], []⟩).nonInstancedMeshes) ∧
    (∀ p ∈ groupsW, ∀ inst ∈ p.2.instances,
      (∃ g ∈ (finalizeGroups 2 idMapW groupsW ⟨[], []⟩).instancedGroups,
        { inst with originalGltfIndex := rewriteId idMapW inst.originalGltfIndex } ∈
          g.instances) ∨
      demoteInstance idMapW inst ∈
        (finalizeGroups 2 idMapW groupsW ⟨[], []⟩).nonInstancedMeshes) :=
  C8_finalization_threshold 2 idMapW groupsW [] (by decide) (by decide)

/-- C9 (amended): equal exact-mode signatures certify the data-equality
predicate only to the extent that the mixed-in source fields determine
it.  Whenever two accessors agree on type, componentType, count and the
`normalized` flag — the full metadata `compareAccessorData` checks,
though the signature omits `normalized` for the indices accessor and
both `count` and `normalized` for morph-target accessors (see the
counterexample) — and their byte views agree in status and, when valid,
in underlying bytes (what equal data hashes are intended to witness),
`compareAccessorData` accepts the pair. -/
theorem C9_equal_fields_predicate (m1 m2 : Model) (a1 a2 : Accessor)
    (htype : a1.type = a2.type) (hcomp : a1.componentType = a2.componentType)
    (hcount : a1.count = a2.count) (hnorm : a1.normalized = a2.normalized)
    (hstat : (accessorViewA m1 a1 1).status = (accessorViewA m2 a2 1).status)
    (hbytes : (accessorViewA m1 a1 1).status = .valid →
      contiguousBytes (accessorViewA m1 a1 1) = contiguousBytes (accessorViewA m2 a2 1)) :
    compareAccessorData m1 a1 m2 a2 = true := by
  unfold compareAccessorData
  rw [if_neg (by push_neg; exact ⟨htype, hcomp, hcount, hnorm⟩)]
  simp only
  by_cases hv : (accessorViewA m1 a1 1).status = .valid
  · have hv2 : (accessorViewA m2 a2 1).status = .valid := hstat ▸ hv
    rw [if_neg (by push_neg; exact ⟨hv, hv2⟩)]
    rw [if_neg (by
      rw [accessorViewA_valid_count m1 a1 1 hv, accessorViewA_valid_count m2 a2 1 hv2]
      exact not_not.mpr hcount)]
    simp [hbytes hv]
  · rw [if_pos (Or.inl hv)]
    simp [hstat]

/-- C9 witness: the predicate theorem applied to one accessor compared
with itself through the same model — every hypothesis holds trivially
and the predicate accepts. -/
theorem C9_equal_fields_predicate_witness :
    compareAccessorData mC9 accIdxN0 mC9 accIdxN0 = true :=
  C9_equal_fields_predicate mC9 mC9 accIdxN0 accIdxN0 rfl rfl rfl rfl rfl
    (fun _ => rfl)

/-- Lookup of a name in pointwise-related attribute lists: entries have
equal names, and equal accessor indices except possibly at skipped
non-POSITION names, so POSITION lookups coincide. -/
theorem lookup_position_eq_of_attrRel (skip : List String) :
    ∀ (l1 l2 : List (String × Int)),
      List.Forall₂ (fun ap bp => ap.1 = bp.1 ∧
        (ap.2 = bp.2 ∨ (skip.contains ap.1 = true ∧ ap.1 ≠ "POSITION"))) l1 l2 →
      l1.lookup "POSITION" = l2.lookup "POSITION"
  | [], [], _ => rfl
  | (n1, i1) :: t1, (n2, i2) :: t2, h => by
    obtain ⟨⟨hname, hidx⟩, htail⟩ := List.forall₂_cons.mp h
    simp only at hname hidx
    subst hname
    by_cases hp : n1 = "POSITION"
    · subst hp
      rcases hidx with h2 | ⟨-, hne⟩
      · subst h2
        simp [List.lookup]
      · exact absurd rfl hne
    · have hbeq : ("POSITION" == n1) = false := by
        simp [Ne.symm hp]
      simp only [List.lookup, hbeq]
      exact lookup_position_eq_of_attrRel skip t1 t2 htail

/-- The tolerance-mode attribute fold depends on a skipped attribute
only through its name. -/
theorem toleranceAttrFold_congr (ntol : ℚ) (skip : List String) (m : Model) :
    ∀ (l1 l2 : List (String × Int)),
      List.Forall₂ (fun ap bp => ap.1 = bp.1 ∧
        (ap.2 = bp.2 ∨ (skip.contains ap.1 = true ∧ ap.1 ≠ "POSITION"))) l1 l2 →
      ∀ s, l1.foldl (toleranceAttrFold ntol skip m) s =
        l2.foldl (toleranceAttrFold ntol skip m) s
  | [], [], _ => fun _ => rfl
  | (n1, i1) :: t1, (n2, i2) :: t2, h => by
    obtain ⟨⟨hname, hidx⟩, htail⟩ := List.forall₂_cons.mp h
    simp only at hname hidx
    subst hname
    intro s
    simp only [List.foldl_cons]
    have hstep : toleranceAttrFold ntol skip m s (n1, i1) =
        toleranceAttrFold ntol skip m s (n1, i2) := by
      unfold toleranceAttrFold
      by_cases hskip : n1 = "POSITION" ∨ skip.contains n1
      · rw [if_pos hskip, if_pos hskip]
      · rcases hidx with h2 | ⟨hc, -⟩
        · rw [h2]
        · exact absurd (Or.inr hc) hskip
    rw [hstep]
    exact toleranceAttrFold_congr ntol skip m t1 t2 htail _

/-- C5 (amended): in tolerance mode, an attribute named in
`skip_attribute_data_hash` contributes only its *name* to the primitive
signature — neither its data nor its accessor metadata.  Two primitives
equal except for the accessor referenced by a skipped non-POSITION
attribute therefore receive the *same* signature. -/
theorem C5_skipped_attr_name_only (tol ntol : ℚ) (skip : List String) (m : Model)
    (p1 p2 : MeshPrimitive)
    (htol : tolEps < tol)
    (hmode : p1.mode = p2.mode) (hmat : p1.material = p2.material)
    (hind : p1.indices = p2.indices) (htarg : p1.targets = p2.targets)
    (hattr : List.Forall₂ (fun ap bp => ap.1 = bp.1 ∧
      (ap.2 = bp.2 ∨ (skip.contains ap.1 = true ∧ ap.1 ≠ "POSITION")))
      p1.attributes p2.attributes) :
    calculatePrimitiveSignature tol ntol skip m p1 =
      calculatePrimitiveSignature tol ntol skip m p2 := by
  unfold calculatePrimitiveSignature
  rw [if_neg (not_le.mpr htol), if_neg (not_le.mpr htol)]
  rw [hmode, hmat, hind, htarg, lookup_position_eq_of_attrRel skip _ _ hattr]
  dsimp only
  rw [toleranceAttrFold_congr ntol skip m _ _ hattr]

/-- C5 witness: the name-only theorem applied to the concrete fixture —
the two primitives differ only in the skipped TEXCOORD_0 accessor and
receive equal signatures. -/
theorem C5_skipped_attr_name_only_witness :
    calculatePrimitiveSignature (mkRat 1 10) 0 ["TEXCOORD_0"] mC5 pTex0 =
      calculatePrimitiveSignature (mkRat 1 10) 0 ["TEXCOORD_0"] mC5 pTex1 :=
  C5_skipped_attr_name_only (mkRat 1 10) 0 ["TEXCOORD_0"] mC5 pTex0 pTex1
    (by decide) rfl rfl rfl rfl
    (List.Forall₂.cons ⟨rfl, Or.inl rfl⟩
      (List.Forall₂.cons ⟨rfl, Or.inr ⟨by decide, by decide⟩⟩ List.Forall₂.nil))

/-- For a valid view over a tightly packed accessor, the contiguous
byte run the engine hashes is exactly the spec's de-interleaved element
sequence. -/
theorem contiguous_view_eq_spec (m : Model) (aIdx : Int) (s : Nat)
    (hidx : ¬ (aIdx < 0 ∨ m.accessors.length ≤ aIdx.toNat))
    (a : Accessor) (ha : m.accessors[aIdx.toNat]? = some a)
    (hv : (accessorViewA m a s).status = .valid)
    (hp : tightlyPacked m aIdx) :
    some (contiguousBytes (accessorViewA m a s)) = specDeinterleavedBytes m aIdx := by
  obtain ⟨hbvidx, bv, hbv, hbufidx, b, hbuf, hs, helem, heq⟩ :=
    accessorViewA_valid_inv m a s hv
  have hp2 : bv.byteStride = none ∨ bv.byteStride = some (elementSize a) := by
    unfold tightlyPacked at hp
    simp only [ha] at hp
    simp only [hbv] at hp
    exact hp
  have hstride : effectiveStride bv a = elementSize a := by
    unfold effectiveStride
    rcases hp2 with h2 | h2
    · simp only [h2]
    · simp only [h2]
      rw [if_pos (Nat.pos_of_ne_zero helem)]
  have hspecStride : bv.byteStride.getD (elementSize a) = elementSize a := by
    rcases hp2 with h2 | h2 <;> rw [h2] <;> rfl
  unfold specDeinterleavedBytes
  rw [if_neg hidx]
  simp only [ha]
  rw [if_neg (by push_neg; exact ⟨hbvidx.1, hbvidx.2⟩)]
  simp only [hbv]
  rw [if_neg (by push_neg; exact ⟨hbufidx.1, hbufidx.2⟩)]
  simp only [hbuf]
  rw [heq, hspecStride]
  unfold contiguousBytes sliceBytes
  simp only
  exact congrArg some
    (take_mul_eq_flatMap b.data (elementSize a) a.count (bv.byteOffset + a.byteOffset))

/-- C2 (amended): whenever the signature engine hashes accessor bytes
(the single-byte or the typed-view path), the hashed sequence is the
contiguous run from the view's base, which equals the claimed
de-interleaved element sequence exactly when the accessor's data is
tightly packed; for interleaved data the two differ (see the
counterexample). -/
theorem C2_hashed_bytes_deinterleaved (m : Model) (aIdx : Int) (nm : String) (tol : ℚ)
    (bs : List Nat)
    (h : hashAccessorDataR m aIdx nm tol = .byteViewDirect bs ∨
         hashAccessorDataR m aIdx nm tol = .typedViewData bs)
    (hp : tightlyPacked m aIdx) :
    some bs = specDeinterleavedBytes m aIdx := by
  unfold hashAccessorDataR at h
  dsimp only at h
  split at h
  · rcases h with h | h <;> simp at h
  rename_i hidx
  split at h
  · rcases h with h | h <;> simp at h
  rename_i a ha
  split at h
  · rcases h with h | h <;> simp at h
  split at h
  · rename_i hbyte
    rcases h with h | h
    · have hbs : bs = contiguousBytes (accessorView m aIdx 1) := by
        injection h.symm
      rw [hbs]
      have : accessorView m aIdx 1 = accessorViewA m a 1 := by
        unfold accessorView
        rw [if_neg hidx]
        simp only [ha]
      rw [this] at hbyte ⊢
      exact contiguous_view_eq_spec m aIdx 1 hidx a ha hbyte hp
    · simp at h
  split at h
  · rcases h with h | h <;> simp at h
  split at h
  · rename_i htyped
    rcases h with h | h
    · simp at h
    · have hbs : bs = contiguousBytes (accessorView m aIdx
          (computeNumberOfComponents a.type * computeByteSizeOfComponent a.componentType)) := by
        injection h.symm
      rw [hbs]
      have hvw : accessorView m aIdx
          (computeNumberOfComponents a.type * computeByteSizeOfComponent a.componentType) =
          accessorViewA m a
            (computeNumberOfComponents a.type * computeByteSizeOfComponent a.componentType) := by
        unfold accessorView
        rw [if_neg hidx]
        simp only [ha]
      rw [hvw]
      exact contiguous_view_eq_spec m aIdx _ hidx a ha (hvw ▸ htyped.2) hp
  · rcases h with h | h <;> simp at h

/-- C2 witness: the amended theorem applied to a tightly packed SCALAR
UNSIGNED_INT accessor, whose hashed bytes are exactly the spec's
element sequence. -/
theorem C2_hashed_bytes_deinterleaved_witness :
    some [0, 0, 0, 0] = specDeinterleavedBytes mC9 0 :=
  C2_hashed_bytes_deinterleaved mC9 0 "INDICES" 0 [0, 0, 0, 0]
    (Or.inr (by decide)) (by decide)

/-- C4 (amended): with a valid accessor index, the signature engine
emits the degraded fallback hash exactly when the accessor's data
cannot be materialised through any of its supported views — the
quantised-NORMAL view, the single-byte view, or a typed view for one of
the whitelisted (type, componentType) pairs.  A buffer with no
in-memory bytes invalidates all views and so always falls back, but so
does an unsupported type/component combination even with its bytes in
memory (see the counterexample). -/
theorem C4_fallback_characterisation (m : Model) (aIdx : Int) (nm : String) (tol : ℚ)
    (a : Accessor) (hidx : validListIdx m.accessors aIdx)
    (ha : m.accessors[aIdx.toNat]? = some a) :
    (∃ st, hashAccessorDataR m aIdx nm tol = .fallback a st) ↔
      (¬ (normalToleranceCond a nm tol ∧ (accessorView m aIdx 12).status = .valid) ∧
       (accessorView m aIdx 1).status ≠ .valid ∧
       ¬ (typedViewSupported a ∧ (accessorView m aIdx (elementSize a)).status = .valid)) := by
  have hguard : ¬ (aIdx < 0 ∨ m.accessors.length ≤ aIdx.toNat) := by
    push_neg
    exact ⟨not_lt.mp (fun hc => absurd hidx.1 (not_le.mpr hc)), hidx.2⟩
  unfold hashAccessorDataR
  rw [if_neg hguard]
  simp only [ha]
  unfold elementSize
  constructor
  · rintro ⟨st, hst⟩
    split at hst
    · simp at hst
    rename_i hnc
    split at hst
    · simp at hst
    rename_i hbyte
    refine ⟨hnc, hbyte, ?_⟩
    split at hst
    · rename_i hzero
      rintro ⟨hsup, -⟩
      have := typedViewSupported_sizes a hsup
      rcases hzero with h0 | h0
      · exact this.1 h0
      · exact this.2 h0
    · split at hst
      · simp at hst
      · rename_i htyped
        exact htyped
  · rintro ⟨hnc, hbyte, hnt⟩
    rw [if_neg hnc, if_neg hbyte]
    by_cases hzero : computeNumberOfComponents a.type = 0 ∨
        computeByteSizeOfComponent a.componentType = 0
    · rw [if_pos hzero]
      exact ⟨_, rfl⟩
    · rw [if_neg hzero, if_neg hnt]
      exact ⟨_, rfl⟩

/-- C4 witness: the characterisation applied to the VEC4 FLOAT accessor
with its bytes in memory — no supported view accepts it, so the
fallback is emitted. -/
theorem C4_fallback_characterisation_witness :
    ∃ st, hashAccessorDataR mAcc 1 "TANGENT" 0 = .fallback accVec4f st :=
  (C4_fallback_characterisation mAcc 1 "TANGENT" 0 accVec4f (by decide)
    (by decide)).mpr (by decide)

/-- C3 counterexample: copying a concrete accessor into a fresh writer
produces the claimed contiguous bytes, zeroed byte offset and remapped
bufferView — but the newly created bufferView carries *no* `byteStride`
at all (`copyAccessor` passes `isVertexBuffer = false` to
`addDataToBuffer`, which therefore discards the element-size stride),
contradicting the claimed `byte_stride = element_size`. -/
theorem C3_stride_unset_cex :
    wC3.1 = 0 ∧
    wC3.2.outputBufferData = [7, 9] ∧
    wC3.2.bufferViews = [⟨0, 0, 2, none, none⟩] ∧
    wC3.2.accessors = [{ accUByte2 with bufferView := 0, byteOffset := 0 }] ∧
    (wC3.2.bufferViews.headD ⟨0, 0, 0, none, none⟩).byteStride ≠
      some (elementSize accUByte2) := by
  decide

/-- C3 (amended): under the conditions `copyAccessor` itself checks —
fresh remap key, resolvable bufferView and buffer with bytes in memory,
in-bounds reads — the copy appends the de-interleaved element bytes
contiguously after 4-byte padding, creates a bufferView over exactly
that region with its `byteStride` left *unset* (not `element_size` as
claimed), and appends an accessor equal to the source except for
`byteOffset = 0` and `bufferView` pointing at the new view. -/
theorem C3_copy_accessor_layout (oldModel : Model) (aIdx mid : Int) (st : WriterState)
    (a : Accessor) (bv : BufferView) (buf : Buffer)
    (hmiss : List.lookup (mid, aIdx) st.accessorRemap = none)
    (hidx : validListIdx oldModel.accessors aIdx)
    (ha : oldModel.accessors[aIdx.toNat]? = some a)
    (hbvidx : validListIdx oldModel.bufferViews a.bufferView)
    (hbv : oldModel.bufferViews[a.bufferView.toNat]? = some bv)
    (hbufidx : validListIdx oldModel.buffers bv.buffer)
    (hbuf : oldModel.buffers[bv.buffer.toNat]? = some buf)
    (hne : buf.data ≠ [])
    (helem : elementSize a ≠ 0)
    (htot : bv.byteOffset + a.byteOffset + a.count * elementSize a ≤ buf.data.length)
    (hper : ∀ i < a.count,
      bv.byteOffset + a.byteOffset + i * effectiveStride bv a + elementSize a ≤
        buf.data.length)
    (hbuffer : st.hasBuffer = true) :
    (copyAccessor oldModel aIdx mid st false).1 = Int.ofNat st.accessors.length ∧
    (copyAccessor oldModel aIdx mid st false).2.outputBufferData =
      st.outputBufferData ++
        List.replicate ((4 - st.outputBufferData.length % 4) % 4) 0 ++
        (List.range a.count).flatMap (fun i =>
          sliceBytes buf.data (bv.byteOffset + a.byteOffset + i * effectiveStride bv a)
            (elementSize a)) ∧
    (st.outputBufferData.length + (4 - st.outputBufferData.length % 4) % 4) % 4 = 0 ∧
    ((List.range a.count).flatMap (fun i =>
      sliceBytes buf.data (bv.byteOffset + a.byteOffset + i * effectiveStride bv a)
        (elementSize a))).length = a.count * elementSize a ∧
    (copyAccessor oldModel aIdx mid st false).2.bufferViews = st.bufferViews ++
      [{ buffer := 0
         byteOffset := st.outputBufferData.length +
           (4 - st.outputBufferData.length % 4) % 4
         byteLength := ((List.range a.count).flatMap (fun i =>
           sliceBytes buf.data (bv.byteOffset + a.byteOffset + i * effectiveStride bv a)
             (elementSize a))).length
         byteStride := none
         target := none }] ∧
    (copyAccessor oldModel aIdx mid st false).2.accessors = st.accessors ++
      [{ a with bufferView := Int.ofNat st.bufferViews.length, byteOffset := 0 }] ∧
    (copyAccessor oldModel aIdx mid st false).2.accessorRemap = st.accessorRemap ++
      [((mid, aIdx), Int.ofNat st.accessors.length)] := by
  have hcollect := collectElements_eq_of_bounds buf.data
    (bv.byteOffset + a.byteOffset) (effectiveStride bv a) (elementSize a) a.count hper
  have hlen := flatMap_slices_length buf.data (bv.byteOffset + a.byteOffset)
    (effectiveStride bv a) (elementSize a) a.count hper
  have hadd : addDataToBuffer st
      ((List.range a.count).flatMap (fun i =>
        sliceBytes buf.data (bv.byteOffset + a.byteOffset + i * effectiveStride bv a)
          (elementSize a)))
      (Int.ofNat (elementSize a)) false =
      (Int.ofNat st.bufferViews.length,
        { st with
          outputBufferData := st.outputBufferData ++
            List.replicate ((4 - st.outputBufferData.length % 4) % 4) 0 ++
            (List.range a.count).flatMap (fun i =>
              sliceBytes buf.data
                (bv.byteOffset + a.byteOffset + i * effectiveStride bv a)
                (elementSize a))
          bufferViews := st.bufferViews ++
            [{ buffer := 0
               byteOffset := st.outputBufferData.length +
                 (4 - st.outputBufferData.length % 4) % 4
               byteLength := ((List.range a.count).flatMap (fun i =>
                 sliceBytes buf.data
                   (bv.byteOffset + a.byteOffset + i * effectiveStride bv a)
                   (elementSize a))).length
               byteStride := none
               target := none }] }) := by
    unfold addDataToBuffer
    rw [if_neg (fun hc => hc hbuffer)]
    dsimp only
    rw [if_neg (fun hc => Bool.false_ne_true hc.1)]
    simp only [List.length_append, List.length_replicate, List.append_assoc]
  have hcopy : copyAccessor oldModel aIdx mid st false =
      (Int.ofNat st.accessors.length,
        { st with
          outputBufferData := st.outputBufferData ++
            List.replicate ((4 - st.outputBufferData.length % 4) % 4) 0 ++
            (List.range a.count).flatMap (fun i =>
              sliceBytes buf.data
                (bv.byteOffset + a.byteOffset + i * effectiveStride bv a)
                (elementSize a))
          bufferViews := st.bufferViews ++
            [{ buffer := 0
               byteOffset := st.outputBufferData.length +
                 (4 - st.outputBufferData.length % 4) % 4
               byteLength := ((List.range a.count).flatMap (fun i =>
                 sliceBytes buf.data
                   (bv.byteOffset + a.byteOffset + i * effectiveStride bv a)
                   (elementSize a))).length
               byteStride := none
               target := none }]
          accessors := st.accessors ++
            [{ a with bufferView := Int.ofNat st.bufferViews.length, byteOffset := 0 }]
          accessorRemap := st.accessorRemap ++
            [((mid, aIdx), Int.ofNat st.accessors.length)] }) := by
    unfold copyAccessor
    simp only [hmiss, ha, hbv, hbuf]
    rw [if_neg (not_not_intro hidx)]
    rw [if_neg (by simp)]
    rw [if_neg (not_lt.mpr hbvidx.1)]
    rw [if_neg (not_not_intro hbvidx)]
    rw [if_neg (not_not_intro hbufidx)]
    rw [if_neg hne]
    rw [if_neg (fun hc => helem hc.1)]
    rw [if_neg (not_lt.mpr htot)]
    simp only [hcollect]
    rw [hadd]
    dsimp only
    rw [if_neg (by exact not_lt.mpr (Int.natCast_nonneg _))]
    simp only [List.length_append, List.length_singleton, Nat.add_sub_cancel,
      List.append_assoc]
  rw [hcopy]
  exact ⟨rfl, rfl, by omega, hlen, rfl, rfl, rfl⟩

/-- C3 witness: the layout theorem applied to the concrete copy
fixture. -/
theorem C3_copy_accessor_layout_witness :
    (copyAccessor mC3 0 0 wState0 false).1 = Int.ofNat wState0.accessors.length ∧
    (copyAccessor mC3 0 0 wState0 false).2.outputBufferData =
      wState0.outputBufferData ++
        List.replicate ((4 - wState0.outputBufferData.length % 4) % 4) 0 ++
        (List.range accUByte2.count).flatMap (fun i =>
          sliceBytes [5, 5, 7, 9] (0 + 2 + i * effectiveStride ⟨0, 0, 4, none, none⟩ accUByte2)
            (elementSize accUByte2)) ∧
    (wState0.outputBufferData.length + (4 - wState0.outputBufferData.length % 4) % 4) % 4 =
      0 ∧
    ((List.range accUByte2.count).flatMap (fun i =>
      sliceBytes [5, 5, 7, 9] (0 + 2 + i * effectiveStride ⟨0, 0, 4, none, none⟩ accUByte2)
        (elementSize accUByte2))).length = accUByte2.count * elementSize accUByte2 ∧
    (copyAccessor mC3 0 0 wState0 false).2.bufferViews = wState0.bufferViews ++
      [{ buffer := 0
         byteOffset := wState0.outputBufferData.length +
           (4 - wState0.outputBufferData.length % 4) % 4
         byteLength := ((List.range accUByte2.count).flatMap (fun i =>
           sliceBytes [5, 5, 7, 9]
             (0 + 2 + i * effectiveStride ⟨0, 0, 4, none, none⟩ accUByte2)
             (elementSize accUByte2))).length
         byteStride := none
         target := none }] ∧
    (copyAccessor mC3 0 0 wState0 false).2.accessors = wState0.accessors ++
      [{ accUByte2 with
          bufferView := Int.ofNat wState0.bufferViews.length
          byteOffset := 0 }] ∧
    (copyAccessor mC3 0 0 wState0 false).2.accessorRemap = wState0.accessorRemap ++
      [((0, 0), Int.ofNat wState0.accessors.length)] :=
  C3_copy_accessor_layout mC3 0 0 wState0 accUByte2 ⟨0, 0, 4, none, none⟩ ⟨[5, 5, 7, 9]⟩
    rfl (by decide) (by decide) (by decide) (by decide) (by decide) (by decide)
    (by decide) (by decide) (by decide) (by decide) rfl

end GltfInstancing
